import Mathlib

/-!
Shallow embedding of the dhcplib DHCP wire-format library (src/error.rs,
src/convert.rs, src/option.rs, src/dhcp.rs, src/messaging.rs) together with
proofs about the option codec, the tag-indexed option set, the packet model
and the message constructors.

Machine bytes are modelled as `Nat` (wire bytes are `u8`, therefore `< 256`;
the `as u8` casts of the source are rendered as `% 256`).  A Rust computation
that can fail is modelled by `RResult`: `ok` for `Ok(..)`, `err` for
`Err(..)`, and `panic` for an unrecoverable crash such as an out-of-bounds
slice index `s[a..b]` or element index `s[i]`.
-/

set_option maxHeartbeats 2000000
set_option maxRecDepth 16384

namespace Dhcplib

/-- The error enum of src/error.rs. -/
inductive DhcpError where
  | MessageOperationInvalid
  | HardwareAddressTypeParseError
  | HardwareAddressParseError
  | TransactionIdParseError
  | SecondsParseError
  | ClientAddressParseError
  | YourAddressParseError
  | ServerAddressParseError
  | GatewayAddressParseError
  | CookieParseError
  | InvalidFlag
  | OptionParseError (tag : Nat)
  | OptionInvalidValueError (tag : Nat)
  | DhcpMessagePacketError
  | ConversionError (tag : Nat)
  | OptionNotExist (tag : Nat)
  | InvalidPacketLength (len : Nat)
  deriving DecidableEq, Repr

/-- Outcome of running a piece of Rust code: a value, a returned `DhcpError`,
or a crash (index/slice out of bounds). -/
inductive RResult (α : Type) where
  | ok (a : α)
  | err (e : DhcpError)
  | panic
  deriving DecidableEq, Repr

namespace RResult

def bind : RResult α → (α → RResult β) → RResult β
  | .ok a, f => f a
  | .err e, _ => .err e
  | .panic, _ => .panic

def map (f : α → β) : RResult α → RResult β
  | .ok a => .ok (f a)
  | .err e => .err e
  | .panic => .panic

instance : Monad RResult where
  pure := .ok
  bind := bind
  map := map

end RResult

/-- Rust element indexing `l[i]` on a slice: panics when out of bounds. -/
def idx (l : List Nat) (i : Nat) : RResult Nat :=
  match l.get? i with
  | some b => .ok b
  | none => .panic

/-- Rust range slicing `l[a..b]`: panics when `a > b` or `b > l.len()`. -/
def slice (l : List Nat) (a b : Nat) : RResult (List Nat) :=
  if a ≤ b ∧ b ≤ l.length then .ok ((l.drop a).take (b - a)) else .panic

/-- Big-endian bytes of a `u16` value (`u16::to_be_bytes`). -/
def u16ToBe (v : Nat) : List Nat := [v / 256 % 256, v % 256]

/-- Big-endian bytes of a `u32` value (`u32::to_be_bytes`). -/
def u32ToBe (v : Nat) : List Nat :=
  [v / 16777216 % 256, v / 65536 % 256, v / 256 % 256, v % 256]

/-- `u16::from_be_bytes` on two wire bytes. -/
def u16FromBe (b0 b1 : Nat) : Nat := b0 * 256 + b1

/-- `u32::from_be_bytes` on four wire bytes. -/
def u32FromBe (b0 b1 b2 b3 : Nat) : Nat :=
  b0 * 16777216 + b1 * 65536 + b2 * 256 + b3

/-- `i32::to_be_bytes`: two's-complement big-endian bytes of an `i32`. -/
def i32ToBe (v : Int) : List Nat := u32ToBe (v % 4294967296).toNat

/-- `i32::from_be_bytes`: two's-complement interpretation of four bytes. -/
def i32FromBe (b0 b1 b2 b3 : Nat) : Int :=
  let n := u32FromBe b0 b1 b2 b3
  if n < 2147483648 then (n : Int) else (n : Int) - 4294967296

/-- `std::net::Ipv4Addr`: four octets. -/
structure Ipv4 where
  o0 : Nat
  o1 : Nat
  o2 : Nat
  o3 : Nat
  deriving DecidableEq, Repr

def Ipv4.octets (ip : Ipv4) : List Nat := [ip.o0, ip.o1, ip.o2, ip.o3]

/-- `Ipv4Addr::UNSPECIFIED`. -/
def Ipv4.unspecified : Ipv4 := ⟨0, 0, 0, 0⟩

/-- `StaticRoute` of src/option.rs. -/
structure StaticRoute where
  destination : Ipv4
  router : Ipv4
  deriving DecidableEq, Repr

/-- `Ipv4WithMask` of src/option.rs. -/
structure Ipv4WithMask where
  ipv4addr : Ipv4
  mask : Ipv4
  deriving DecidableEq, Repr

/-- `RelayAgentInformationSubOption` of src/option.rs. -/
inductive RelayAgentInformationSubOption where
  | AgentCircuit (data : List Nat)
  | AgentRemote (data : List Nat)
  | Unknown (data : List Nat)
  deriving DecidableEq, Repr

/-- `NetBiosNodeType` of src/option.rs. -/
inductive NetBiosNodeType where
  | B | P | M | H
  deriving DecidableEq, Repr

/-- `Overload` of src/option.rs. -/
inductive Overload where
  | Sname | File | Both
  deriving DecidableEq, Repr

/-- `MessageType` of src/option.rs. -/
inductive MessageType where
  | Discover | Offer | Request | Decline | Ack | Nak | Release | Inform
  deriving DecidableEq, Repr

/-! Constants of src/convert.rs. -/

def MESSAGE_TYPE_DISCOVER : Nat := 1
def MESSAGE_TYPE_OFFER : Nat := 2
def MESSAGE_TYPE_REQUEST : Nat := 3
def MESSAGE_TYPE_DECLINE : Nat := 4
def MESSAGE_TYPE_PACK : Nat := 5
def MESSAGE_TYPE_NAK : Nat := 6
def MESSAGE_TYPE_RELEASE : Nat := 7
def MESSAGE_TYPE_INFORM : Nat := 8

def NODE_TYPE_B : Nat := 1
def NODE_TYPE_P : Nat := 2
def NODE_TYPE_M : Nat := 4
def NODE_TYPE_H : Nat := 8

def RELAY_AGENT_CIRCUIT : Nat := 1
def RELAY_AGENT_REMOTE : Nat := 2

def OVERLOAD_FILE : Nat := 1
def OVERLOAD_SNAME : Nat := 2
def OVERLOAD_BOTH : Nat := 3

/-! ## Decoders (`TryToOption<T> for &[u8]`, src/convert.rs)

Each `tryTo…` function models `<&[u8] as TryToOption<T>>::try_from_option`.
The source indexes with `self[0..n]` before `try_into`, so a slice shorter
than `n` panics there; the `map_err` to `OptionParseError` can only fire on a
length mismatch of the already-taken slice, which cannot happen. -/

/-- `TryToOption<Ipv4Addr>`: `self[0..4].try_into()`. -/
def tryToIpv4 (s : List Nat) (tag : Nat) : RResult Ipv4 :=
  (slice s 0 4).bind fun f =>
    match f with
    | [a, b, c, d] => .ok ⟨a, b, c, d⟩
    | _ => .err (.OptionParseError tag)

/-- `chunks_exact(4)` turned into addresses (remainder dropped). -/
def ipv4Chunks : List Nat → List Ipv4
  | a :: b :: c :: d :: rest => ⟨a, b, c, d⟩ :: ipv4Chunks rest
  | _ => []

/-- `TryToOption<Vec<Ipv4Addr>>`: length must be a multiple of 4. -/
def tryToIpv4Vec (s : List Nat) (tag : Nat) : RResult (List Ipv4) :=
  if s.length % 4 = 0 then .ok (ipv4Chunks s)
  else .err (.OptionParseError tag)

/-- `TryToOption<u8>`: `self[0..1]`. -/
def tryToU8 (s : List Nat) (tag : Nat) : RResult Nat :=
  (slice s 0 1).bind fun f =>
    match f with
    | [a] => .ok a
    | _ => .err (.OptionParseError tag)

/-- `TryToOption<u16>`: `self[0..2]` big-endian. -/
def tryToU16 (s : List Nat) (tag : Nat) : RResult Nat :=
  (slice s 0 2).bind fun f =>
    match f with
    | [a, b] => .ok (u16FromBe a b)
    | _ => .err (.OptionParseError tag)

/-- `TryToOption<u32>`: `self[0..4]` big-endian. -/
def tryToU32 (s : List Nat) (tag : Nat) : RResult Nat :=
  (slice s 0 4).bind fun f =>
    match f with
    | [a, b, c, d] => .ok (u32FromBe a b c d)
    | _ => .err (.OptionParseError tag)

/-- `TryToOption<i32>`: `self[0..4]` big-endian two's complement. -/
def tryToI32 (s : List Nat) (tag : Nat) : RResult Int :=
  (slice s 0 4).bind fun f =>
    match f with
    | [a, b, c, d] => .ok (i32FromBe a b c d)
    | _ => .err (.OptionParseError tag)

/-- `TryToOption<AsciiString>`: every byte must be 7-bit ASCII. -/
def tryToAscii (s : List Nat) (tag : Nat) : RResult (List Nat) :=
  if s.all (· < 128) then .ok s else .err (.OptionParseError tag)

/-- `TryToOption<bool>`: first byte 0 or 1; absent or other byte is an error. -/
def tryToBool (s : List Nat) (tag : Nat) : RResult Bool :=
  match s with
  | [] => .err (.OptionParseError tag)
  | v :: _ =>
    if v = 0 then .ok false
    else if v = 1 then .ok true
    else .err (.OptionParseError tag)

/-- `chunks_exact(8)` turned into address pairs. -/
def ipv4PairChunks : List Nat → List (Ipv4 × Ipv4)
  | a :: b :: c :: d :: e :: f :: g :: h :: rest =>
    (⟨a, b, c, d⟩, ⟨e, f, g, h⟩) :: ipv4PairChunks rest
  | _ => []

/-- `TryToOption<Vec<(Ipv4Addr, Ipv4Addr)>>`: length must be a multiple of 8. -/
def tryToIpv4PairVec (s : List Nat) (tag : Nat) : RResult (List (Ipv4 × Ipv4)) :=
  if s.length % 8 = 0 then .ok (ipv4PairChunks s)
  else .err (.OptionParseError tag)

/-- Modelled from the spec: the conversion `decode` for the policy-filter
value (`Vec<Ipv4WithMask>`), absent from src/convert.rs (only the pair-list
decoder for `Vec<(Ipv4Addr, Ipv4Addr)>` is present there): per §4.1 the
"(IPv4,IPv4) pair list (policy filter / static route)" requires the total
length to be a multiple of 8, each 8-byte chunk giving one (address, mask)
pair. -/
def tryToIpv4MaskVec (s : List Nat) (tag : Nat) : RResult (List Ipv4WithMask) :=
  if s.length % 8 = 0 then
    .ok ((ipv4PairChunks s).map fun p => ⟨p.1, p.2⟩)
  else .err (.OptionParseError tag)

/-- Modelled from the spec: the conversion `decode` for the static-route
value (`Vec<StaticRoute>`), absent from src/convert.rs: per §4.1 the total
length must be a multiple of 8, each 8-byte chunk giving one
(destination, router) pair. -/
def tryToStaticRouteVec (s : List Nat) (tag : Nat) : RResult (List StaticRoute) :=
  if s.length % 8 = 0 then
    .ok ((ipv4PairChunks s).map fun p => ⟨p.1, p.2⟩)
  else .err (.OptionParseError tag)

/-- `TryToOption<Vec<u8>>`: always succeeds with a copy. -/
def tryToVecU8 (s : List Nat) (_tag : Nat) : RResult (List Nat) := .ok s

/-- `chunks_exact(2)` each decoded as big-endian `u16`. -/
def u16Chunks : List Nat → List Nat
  | a :: b :: rest => u16FromBe a b :: u16Chunks rest
  | _ => []

/-- `TryToOption<Vec<u16>>`: length must be a multiple of 2. -/
def tryToVecU16 (s : List Nat) (tag : Nat) : RResult (List Nat) :=
  if s.length % 2 = 0 then .ok (u16Chunks s)
  else .err (.OptionParseError tag)

/-- `TryToOption<NetBiosNodeType>`: dispatch on the first byte. -/
def tryToNodeType (s : List Nat) (tag : Nat) : RResult NetBiosNodeType :=
  match s with
  | v :: _ =>
    if v = NODE_TYPE_B then .ok .B
    else if v = NODE_TYPE_P then .ok .P
    else if v = NODE_TYPE_M then .ok .M
    else if v = NODE_TYPE_H then .ok .H
    else .err (.OptionParseError tag)
  | [] => .err (.OptionParseError tag)

/-- `TryToOption<Overload>`: dispatch on the first byte. -/
def tryToOverload (s : List Nat) (tag : Nat) : RResult Overload :=
  match s with
  | v :: _ =>
    if v = OVERLOAD_FILE then .ok .File
    else if v = OVERLOAD_SNAME then .ok .Sname
    else if v = OVERLOAD_BOTH then .ok .Both
    else .err (.OptionParseError tag)
  | [] => .err (.OptionParseError tag)

/-- `TryToOption<MessageType>`: dispatch on the first byte. -/
def tryToMessageType (s : List Nat) (tag : Nat) : RResult MessageType :=
  match s with
  | v :: _ =>
    if v = MESSAGE_TYPE_DISCOVER then .ok .Discover
    else if v = MESSAGE_TYPE_OFFER then .ok .Offer
    else if v = MESSAGE_TYPE_REQUEST then .ok .Request
    else if v = MESSAGE_TYPE_DECLINE then .ok .Decline
    else if v = MESSAGE_TYPE_PACK then .ok .Ack
    else if v = MESSAGE_TYPE_NAK then .ok .Nak
    else if v = MESSAGE_TYPE_RELEASE then .ok .Release
    else if v = MESSAGE_TYPE_INFORM then .ok .Inform
    else .err (.OptionParseError tag)
  | [] => .err (.OptionParseError tag)

/-- One sub-option value from its sub-tag byte. -/
def mkRelaySub (subTag : Nat) (data : List Nat) : RelayAgentInformationSubOption :=
  if subTag = RELAY_AGENT_CIRCUIT then .AgentCircuit data
  else if subTag = RELAY_AGENT_REMOTE then .AgentRemote data
  else .Unknown data

/-- `TryToOption<Vec<RelayAgentInformationSubOption>>`: the loop of
src/convert.rs lines 211-235.  Each round reads `sub_tag = bytes.get(0)`,
`length = bytes.get(1) + 2` (either `get` failing is `OptionParseError`),
then takes `data = bytes[2..length]` — a slice that panics when `length`
exceeds the remaining bytes — advances to `bytes[length..]` and stops once
the remainder is empty. -/
def tryToRelaySubs (tag : Nat) : (bytes : List Nat) → RResult (List RelayAgentInformationSubOption)
  | [] => .err (.OptionParseError tag)
  | [_] => .err (.OptionParseError tag)
  | subTag :: subLen :: rest =>
    let length := subLen + 2
    if h : length ≤ (subTag :: subLen :: rest).length then
      let data := rest.take subLen
      let sub := mkRelaySub subTag data
      let remaining := (subTag :: subLen :: rest).drop length
      if remaining.isEmpty then .ok [sub]
      else (tryToRelaySubs tag remaining).map (sub :: ·)
    else .panic
  termination_by bytes => bytes.length
  decreasing_by
    simp only [List.length_drop, List.length_cons] at *
    omega

/-- The `try_from_option_min_bytes` default of `TryIntoOptionMinBytes`:
reject inputs shorter than `min_bytes`, then decode. -/
def tryMinBytes (dec : List Nat → Nat → RResult α) (s : List Nat) (tag minBytes : Nat) :
    RResult α :=
  if s.length < minBytes then .err (.OptionParseError tag) else dec s tag

/-! ## Encoders (`ToOptionBytes`, src/convert.rs)

Each mirrors one `to_option_bytes` impl.  `data.insert(0, data.len() as u8)`
prepends the payload length truncated to a byte, then the tag is prepended. -/

/-- `ToOptionBytes for Ipv4Addr`. -/
def ipv4ToOptionBytes (ip : Ipv4) (tag : Nat) : List Nat :=
  let data := ip.octets
  tag :: data.length % 256 :: data

/-- `ToOptionBytes for Vec<Ipv4Addr>`: tag, then all octets, then the length
byte inserted at position 1. -/
def ipv4VecToOptionBytes (ips : List Ipv4) (tag : Nat) : List Nat :=
  let body := (ips.map Ipv4.octets).flatten
  tag :: body.length % 256 :: body

/-- `ToOptionBytes for u16`. -/
def u16ToOptionBytes (v : Nat) (tag : Nat) : List Nat := tag :: 2 :: u16ToBe v

/-- `ToOptionBytes for u32`. -/
def u32ToOptionBytes (v : Nat) (tag : Nat) : List Nat := tag :: 4 :: u32ToBe v

/-- `ToOptionBytes for i32`. -/
def i32ToOptionBytes (v : Int) (tag : Nat) : List Nat := tag :: 4 :: i32ToBe v

/-- `ToOptionBytes for AsciiString`. -/
def asciiToOptionBytes (s : List Nat) (tag : Nat) : List Nat :=
  tag :: s.length % 256 :: s

/-- `ToOptionBytes for &bool`. -/
def boolToOptionBytes (b : Bool) (tag : Nat) : List Nat :=
  [tag, 1, if b then 1 else 0]

/-- `ToOptionBytes for &Vec<(Ipv4Addr, Ipv4Addr)>`, applied through the
(spec-modelled) pair view of `Ipv4WithMask` and `StaticRoute` lists. -/
def ipv4PairVecToOptionBytes (ps : List (Ipv4 × Ipv4)) (tag : Nat) : List Nat :=
  let data := (ps.map fun p => p.1.octets ++ p.2.octets).flatten
  tag :: data.length % 256 :: data

/-- `ToOptionBytes for &u8`. -/
def u8ToOptionBytes (v : Nat) (tag : Nat) : List Nat := [tag, 1, v]

/-- `ToOptionBytes for &Vec<u16>`. -/
def u16VecToOptionBytes (vs : List Nat) (tag : Nat) : List Nat :=
  let data := (vs.map u16ToBe).flatten
  tag :: data.length % 256 :: data

/-- `ToOptionBytes for &Vec<u8>`. -/
def u8VecToOptionBytes (vs : List Nat) (tag : Nat) : List Nat :=
  tag :: vs.length % 256 :: vs

/-- `ToOptionBytes for &NetBiosNodeType`. -/
def nodeTypeToOptionBytes (v : NetBiosNodeType) (tag : Nat) : List Nat :=
  [tag, 1, match v with
    | .B => NODE_TYPE_B
    | .P => NODE_TYPE_P
    | .M => NODE_TYPE_M
    | .H => NODE_TYPE_H]

/-- `ToOptionBytes for &Overload`. -/
def overloadToOptionBytes (v : Overload) (tag : Nat) : List Nat :=
  [tag, 1, match v with
    | .File => OVERLOAD_FILE
    | .Sname => OVERLOAD_SNAME
    | .Both => OVERLOAD_BOTH]

/-- `ToOptionBytes for &MessageType`. -/
def messageTypeToOptionBytes (v : MessageType) (tag : Nat) : List Nat :=
  [tag, 1, match v with
    | .Discover => MESSAGE_TYPE_DISCOVER
    | .Offer => MESSAGE_TYPE_OFFER
    | .Request => MESSAGE_TYPE_REQUEST
    | .Decline => MESSAGE_TYPE_DECLINE
    | .Ack => MESSAGE_TYPE_PACK
    | .Nak => MESSAGE_TYPE_NAK
    | .Release => MESSAGE_TYPE_RELEASE
    | .Inform => MESSAGE_TYPE_INFORM]

/-- One relay sub-option encoded as `[sub_tag, len, data...]`; an `Unknown`
sub-option is written with sub-tag 0. -/
def relaySubBytes (r : RelayAgentInformationSubOption) : List Nat :=
  match r with
  | .AgentRemote d => RELAY_AGENT_REMOTE :: d.length % 256 :: d
  | .AgentCircuit d => RELAY_AGENT_CIRCUIT :: d.length % 256 :: d
  | .Unknown d => 0 :: d.length % 256 :: d

/-- `ToOptionBytes for &Vec<RelayAgentInformationSubOption>`. -/
def relayVecToOptionBytes (rs : List RelayAgentInformationSubOption) (tag : Nat) : List Nat :=
  let subOptions := (rs.map relaySubBytes).flatten
  tag :: subOptions.length % 256 :: subOptions

end Dhcplib

namespace Dhcplib

/-! ## Option tags (src/option.rs constants, RFC 2132 / RFC 3046) -/

def PAD : Nat := 0
def SUBNET_MASK : Nat := 1
def TIME_OFFSET : Nat := 2
def ROUTER : Nat := 3
def TIME_SERVER : Nat := 4
def NAME_SERVER : Nat := 5
def DOMAIN_NAME_SERVER : Nat := 6
def LOG_SERVER : Nat := 7
def COOKIE_SERVER : Nat := 8
def LPR_SERVER : Nat := 9
def IMPRESS_SERVER : Nat := 10
def RESOURCE_LOCATION_SERVER : Nat := 11
def HOST_NAME : Nat := 12
def BOOT_FILE_SIZE : Nat := 13
def MERIT_DUMP_FILE : Nat := 14
def DOMAIN_NAME : Nat := 15
def SWAP_SERVER : Nat := 16
def ROOT_PATH : Nat := 17
def EXTENSION_PATH : Nat := 18
def IP_FORWARDING : Nat := 19
def NON_LOCAL_SOURCE_ROUTING : Nat := 20
def POLICY_FILTER : Nat := 21
def MAXIMUM_DATAGRAM_REASSEMBLY_SIZE : Nat := 22
def DEFAULT_IP_TTL : Nat := 23
def PATH_MTU_AGING_TIMEOUT : Nat := 24
def PATH_MTU_PLATEAU_TABLE : Nat := 25
def INTERFACE_MTU : Nat := 26
def ALL_SUBNETS_LOCAL : Nat := 27
def BROADCAST_ADDRESS : Nat := 28
def PERFORM_MASK_DISCOVERY : Nat := 29
def MASK_SUPPLIER : Nat := 30
def PERFORM_ROUTER_DISCOVERY : Nat := 31
def ROUTER_SOLICITATION_ADDRESS : Nat := 32
def STATIC_ROUTE : Nat := 33
def TRAILER_ENCAPSULATION : Nat := 34
def ARP_CACHE_TIMEOUT : Nat := 35
def ETHERNET_ENCAPSULATION : Nat := 36
def TCP_DEFAULT_TTL : Nat := 37
def TCP_KEEPALIVE_INTERVAL : Nat := 38
def TCP_KEEPALIVE_GARGABE : Nat := 39
def NETWORK_INFORMATION_SERVICE_DOMAIN : Nat := 40
def NETWORK_INFORMATION_SERVERS : Nat := 41
def NETWORK_TIME_PROTOCOL_SERVERS : Nat := 42
def VENDOR_SPECIFIC : Nat := 43
def NETBIOS_OVER_TCP_IP_NAME_SERVER : Nat := 44
def NETBIOS_OVER_TCP_IP_DATAGRAM_DISTRIBUTION_SERVER : Nat := 45
def NETBIOS_OVER_TCP_IP_NODE_TYPE : Nat := 46
def NETBIOS_OVER_TCP_IP_SCOPE : Nat := 47
def X_WINDOW_SYSTEM_FONT_SERVER : Nat := 48
def X_WINDOW_SYSTEM_DISPLAY_MANAGER : Nat := 49
def REQUESTED_IP_ADDRESS : Nat := 50
def IP_ADDRESS_LEASE_TIME : Nat := 51
def OPTION_OVERLOAD : Nat := 52
def MESSAGE_TYPE : Nat := 53
def SERVER_IDENTIFIER : Nat := 54
def PARAMETER_REQUEST_LIST : Nat := 55
def MESSAGE : Nat := 56
def MAXIMUM_DHCP_MESSAGE_SIZE : Nat := 57
def RENEWAL_TIME_VALUE : Nat := 58
def REBINDING_TIME_VALUE : Nat := 59
def VENDOR_CLASS_IDENTIFIER : Nat := 60
def CLIENT_IDENTIFIER : Nat := 61
def NETWORK_INFORMATION_SERVICE_PLUS_DOMAIN : Nat := 64
def NETWORK_INFORMATION_SERVICE_PLUS_SERVERS : Nat := 65
def TFTP_SERVER_NAME : Nat := 66
def BOOT_FILE_NAME : Nat := 67
def MOBILE_IP_HOME_AGENT : Nat := 68
def SMTP_SERVER : Nat := 69
def POP3_SERVER : Nat := 70
def NNTP_SERVER : Nat := 71
def WWW_SERVER : Nat := 72
def FINGER_SERVER : Nat := 73
def IRC_SERVER : Nat := 74
def STREET_TALK_SERVER : Nat := 75
def STREET_TALK_DIRECTORY_ASSISTANCE : Nat := 76
def END : Nat := 255
def RELAY_AGENT_INFORMATION : Nat := 82

/-- The `DhcpOption` enum of src/option.rs.  ASCII strings are byte lists;
the `ClientIdentifier` variant carries the struct's `typ` and `data` fields
directly. -/
inductive DhcpOption where
  | Pad
  | SubnetMask (v : Ipv4)
  | TimeOffset (v : Int)
  | Router (v : List Ipv4)
  | TimeServer (v : List Ipv4)
  | NameServer (v : List Ipv4)
  | DomainNameServer (v : List Ipv4)
  | LogServer (v : List Ipv4)
  | CookieServer (v : List Ipv4)
  | LPRServer (v : List Ipv4)
  | ImpressServer (v : List Ipv4)
  | ResourceLocationServer (v : List Ipv4)
  | HostName (v : List Nat)
  | BootFileSize (v : Nat)
  | MeritDumpFile (v : List Nat)
  | DomainName (v : List Nat)
  | SwapServer (v : Ipv4)
  | RootPath (v : List Nat)
  | ExtensionPath (v : List Nat)
  | IpForwarding (v : Bool)
  | NonLocalSourceRouting (v : Bool)
  | PolicyFilter (v : List Ipv4WithMask)
  | MaximumDatagramReassemblySize (v : Nat)
  | DefaultIpTTL (v : Nat)
  | PathMtuAgingTimeout (v : Nat)
  | PathMtuPlateauTable (v : List Nat)
  | InterfaceMtu (v : Nat)
  | AllSubnetsLocal (v : Bool)
  | BroadcastAddress (v : Ipv4)
  | MaskSupplier (v : Bool)
  | PerformRouterDiscovery (v : Bool)
  | RouterSolicitationAddress (v : Ipv4)
  | StaticRoute (v : List StaticRoute)
  | TrailerEncapsulation (v : Bool)
  | ArpCacheTimeout (v : Nat)
  | EthernetEncapsulation (v : Bool)
  | TcpDefaultTTL (v : Nat)
  | TcpKeepAliveInterval (v : Nat)
  | TcpKeepAliveGarbage (v : Bool)
  | NetworkInformationServiceDomain (v : List Nat)
  | NetworkInformationServers (v : List Ipv4)
  | NetworkTimeProtocolServers (v : List Ipv4)
  | VendorSpecific (v : List Nat)
  | NetBiosOverTcpIpNameServer (v : List Ipv4)
  | NetBiosOverTcpIpDatagramDistributionServer (v : List Ipv4)
  | NetBiosOverTcpIpNodeType (v : NetBiosNodeType)
  | NetBiosOverTcpIpScope (v : List Nat)
  | XWindowSystemFontServer (v : List Ipv4)
  | XWindowSystemDisplayManager (v : List Ipv4)
  | RequestedIpAddress (v : Ipv4)
  | IpAddressLeaseTime (v : Nat)
  | OptionOverload (v : Overload)
  | MessageType (v : MessageType)
  | ServerIdentifier (v : Ipv4)
  | ParameterRequestList (v : List Nat)
  | Message (v : List Nat)
  | MaximumDhcpMessageSize (v : Nat)
  | RenewalTimeValue (v : Nat)
  | RebindingTimeValue (v : Nat)
  | VendorClassIdentifier (v : List Nat)
  | ClientIdentifier (typ : Nat) (data : List Nat)
  | NetworkInformationServicePlusDomain (v : List Nat)
  | NetworkInformationServicePlusServer (v : List Ipv4)
  | TftpServer (v : List Nat)
  | BootFileName (v : List Nat)
  | MobileIpHomeAgent (v : List Ipv4)
  | SmtpServer (v : List Ipv4)
  | Pop3Server (v : List Ipv4)
  | NntpServer (v : List Ipv4)
  | WwwServer (v : List Ipv4)
  | FingerServer (v : List Ipv4)
  | IrcServer (v : List Ipv4)
  | StreetTalkServer (v : List Ipv4)
  | StreetTalkDirectoryAssistanceServer (v : List Ipv4)
  | End
  | RelayAgentInformation (v : List RelayAgentInformationSubOption)
  | Unknown (tag : Nat) (data : List Nat)

namespace DhcpOption

/-- `DhcpOption::tag` of src/option.rs lines 638-718.  Note the source's
`NetworkInformationServers` arm returns `NETBIOS_OVER_TCP_IP_NAME_SERVER`
(44), not `NETWORK_INFORMATION_SERVERS` (41). -/
def tag : DhcpOption → Nat
  | .Pad => PAD
  | .SubnetMask _ => SUBNET_MASK
  | .TimeOffset _ => TIME_OFFSET
  | .Router _ => ROUTER
  | .TimeServer _ => TIME_SERVER
  | .NameServer _ => NAME_SERVER
  | .DomainNameServer _ => DOMAIN_NAME_SERVER
  | .LogServer _ => LOG_SERVER
  | .CookieServer _ => COOKIE_SERVER
  | .LPRServer _ => LPR_SERVER
  | .ImpressServer _ => IMPRESS_SERVER
  | .ResourceLocationServer _ => RESOURCE_LOCATION_SERVER
  | .HostName _ => HOST_NAME
  | .BootFileSize _ => BOOT_FILE_SIZE
  | .MeritDumpFile _ => MERIT_DUMP_FILE
  | .DomainName _ => DOMAIN_NAME
  | .SwapServer _ => SWAP_SERVER
  | .RootPath _ => ROOT_PATH
  | .ExtensionPath _ => EXTENSION_PATH
  | .IpForwarding _ => IP_FORWARDING
  | .NonLocalSourceRouting _ => NON_LOCAL_SOURCE_ROUTING
  | .PolicyFilter _ => POLICY_FILTER
  | .MaximumDatagramReassemblySize _ => MAXIMUM_DATAGRAM_REASSEMBLY_SIZE
  | .DefaultIpTTL _ => DEFAULT_IP_TTL
  | .PathMtuAgingTimeout _ => PATH_MTU_AGING_TIMEOUT
  | .PathMtuPlateauTable _ => PATH_MTU_PLATEAU_TABLE
  | .InterfaceMtu _ => INTERFACE_MTU
  | .AllSubnetsLocal _ => ALL_SUBNETS_LOCAL
  | .BroadcastAddress _ => BROADCAST_ADDRESS
  | .MaskSupplier _ => MASK_SUPPLIER
  | .PerformRouterDiscovery _ => PERFORM_ROUTER_DISCOVERY
  | .RouterSolicitationAddress _ => ROUTER_SOLICITATION_ADDRESS
  | .StaticRoute _ => STATIC_ROUTE
  | .TrailerEncapsulation _ => TRAILER_ENCAPSULATION
  | .ArpCacheTimeout _ => ARP_CACHE_TIMEOUT
  | .EthernetEncapsulation _ => ETHERNET_ENCAPSULATION
  | .TcpDefaultTTL _ => TCP_DEFAULT_TTL
  | .TcpKeepAliveInterval _ => TCP_KEEPALIVE_INTERVAL
  | .TcpKeepAliveGarbage _ => TCP_KEEPALIVE_GARGABE
  | .NetworkInformationServiceDomain _ => NETWORK_INFORMATION_SERVICE_DOMAIN
  | .NetworkInformationServers _ => NETBIOS_OVER_TCP_IP_NAME_SERVER
  | .NetworkTimeProtocolServers _ => NETWORK_TIME_PROTOCOL_SERVERS
  | .VendorSpecific _ => VENDOR_SPECIFIC
  | .NetBiosOverTcpIpNameServer _ => NETBIOS_OVER_TCP_IP_NAME_SERVER
  | .NetBiosOverTcpIpDatagramDistributionServer _ => NETBIOS_OVER_TCP_IP_DATAGRAM_DISTRIBUTION_SERVER
  | .NetBiosOverTcpIpNodeType _ => NETBIOS_OVER_TCP_IP_NODE_TYPE
  | .NetBiosOverTcpIpScope _ => NETBIOS_OVER_TCP_IP_SCOPE
  | .XWindowSystemFontServer _ => X_WINDOW_SYSTEM_FONT_SERVER
  | .XWindowSystemDisplayManager _ => X_WINDOW_SYSTEM_DISPLAY_MANAGER
  | .RequestedIpAddress _ => REQUESTED_IP_ADDRESS
  | .IpAddressLeaseTime _ => IP_ADDRESS_LEASE_TIME
  | .OptionOverload _ => OPTION_OVERLOAD
  | .MessageType _ => MESSAGE_TYPE
  | .ServerIdentifier _ => SERVER_IDENTIFIER
  | .ParameterRequestList _ => PARAMETER_REQUEST_LIST
  | .Message _ => MESSAGE
  | .MaximumDhcpMessageSize _ => MAXIMUM_DHCP_MESSAGE_SIZE
  | .RenewalTimeValue _ => RENEWAL_TIME_VALUE
  | .RebindingTimeValue _ => REBINDING_TIME_VALUE
  | .VendorClassIdentifier _ => VENDOR_CLASS_IDENTIFIER
  | .ClientIdentifier _ _ => CLIENT_IDENTIFIER
  | .NetworkInformationServicePlusDomain _ => NETWORK_INFORMATION_SERVICE_PLUS_DOMAIN
  | .NetworkInformationServicePlusServer _ => NETWORK_INFORMATION_SERVICE_PLUS_SERVERS
  | .TftpServer _ => TFTP_SERVER_NAME
  | .BootFileName _ => BOOT_FILE_NAME
  | .MobileIpHomeAgent _ => MOBILE_IP_HOME_AGENT
  | .SmtpServer _ => SMTP_SERVER
  | .Pop3Server _ => POP3_SERVER
  | .NntpServer _ => NNTP_SERVER
  | .WwwServer _ => WWW_SERVER
  | .FingerServer _ => FINGER_SERVER
  | .IrcServer _ => IRC_SERVER
  | .StreetTalkServer _ => STREET_TALK_SERVER
  | .StreetTalkDirectoryAssistanceServer _ => STREET_TALK_DIRECTORY_ASSISTANCE
  | .End => END
  | .RelayAgentInformation _ => RELAY_AGENT_INFORMATION
  | .Unknown t _ => t

end DhcpOption

end Dhcplib

namespace Dhcplib

namespace DhcpOption

/-- `DhcpOption::from_bytes` of src/option.rs lines 721-825: tag-dispatched
decoding of one option payload.  The `_length` argument is unused by the
source.  Note the source's `PERFORM_MASK_DISCOVERY` arm builds
`PerformRouterDiscovery`, and the `CLIENT_IDENTIFIER` arm indexes `data[0]`
without a bounds check. -/
def from_bytes (tag : Nat) (_length : Nat) (data : List Nat) : RResult DhcpOption :=
  if tag = PAD then .ok .Pad
  else if tag = SUBNET_MASK then (tryToIpv4 data tag).map .SubnetMask
  else if tag = TIME_OFFSET then (tryToI32 data tag).map .TimeOffset
  else if tag = ROUTER then (tryMinBytes tryToIpv4Vec data tag 4).map .Router
  else if tag = TIME_SERVER then (tryMinBytes tryToIpv4Vec data tag 4).map .TimeServer
  else if tag = NAME_SERVER then (tryMinBytes tryToIpv4Vec data tag 4).map .NameServer
  else if tag = DOMAIN_NAME_SERVER then (tryMinBytes tryToIpv4Vec data tag 4).map .DomainNameServer
  else if tag = LOG_SERVER then (tryMinBytes tryToIpv4Vec data tag 4).map .LogServer
  else if tag = COOKIE_SERVER then (tryMinBytes tryToIpv4Vec data tag 4).map .CookieServer
  else if tag = LPR_SERVER then (tryMinBytes tryToIpv4Vec data tag 4).map .LPRServer
  else if tag = IMPRESS_SERVER then (tryMinBytes tryToIpv4Vec data tag 4).map .ImpressServer
  else if tag = RESOURCE_LOCATION_SERVER then (tryMinBytes tryToIpv4Vec data tag 4).map .ResourceLocationServer
  else if tag = HOST_NAME then (tryMinBytes tryToAscii data tag 1).map .HostName
  else if tag = BOOT_FILE_SIZE then (tryToU16 data tag).map .BootFileSize
  else if tag = MERIT_DUMP_FILE then (tryMinBytes tryToAscii data tag 1).map .MeritDumpFile
  else if tag = DOMAIN_NAME then (tryMinBytes tryToAscii data tag 1).map .DomainName
  else if tag = SWAP_SERVER then (tryToIpv4 data tag).map .SwapServer
  else if tag = ROOT_PATH then (tryMinBytes tryToAscii data tag 1).map .RootPath
  else if tag = EXTENSION_PATH then (tryMinBytes tryToAscii data tag 1).map .ExtensionPath
  else if tag = IP_FORWARDING then (tryToBool data tag).map .IpForwarding
  else if tag = NON_LOCAL_SOURCE_ROUTING then (tryToBool data tag).map .NonLocalSourceRouting
  else if tag = POLICY_FILTER then (tryMinBytes tryToIpv4MaskVec data tag 8).map .PolicyFilter
  else if tag = MAXIMUM_DATAGRAM_REASSEMBLY_SIZE then
    (tryToU16 data tag).bind fun v =>
      if v < 576 then .err (.OptionInvalidValueError tag)
      else .ok (.MaximumDatagramReassemblySize v)
  else if tag = DEFAULT_IP_TTL then (tryMinBytes tryToU8 data tag 1).map .DefaultIpTTL
  else if tag = PATH_MTU_AGING_TIMEOUT then (tryToU32 data tag).map .PathMtuAgingTimeout
  else if tag = PATH_MTU_PLATEAU_TABLE then (tryMinBytes tryToVecU16 data tag 2).map .PathMtuPlateauTable
  else if tag = INTERFACE_MTU then (tryToU16 data tag).map .InterfaceMtu
  else if tag = ALL_SUBNETS_LOCAL then (tryToBool data tag).map .AllSubnetsLocal
  else if tag = BROADCAST_ADDRESS then (tryToIpv4 data tag).map .BroadcastAddress
  else if tag = PERFORM_MASK_DISCOVERY then (tryToBool data tag).map .PerformRouterDiscovery
  else if tag = MASK_SUPPLIER then (tryToBool data tag).map .MaskSupplier
  else if tag = PERFORM_ROUTER_DISCOVERY then (tryToBool data tag).map .PerformRouterDiscovery
  else if tag = ROUTER_SOLICITATION_ADDRESS then (tryMinBytes tryToIpv4 data tag 4).map .RouterSolicitationAddress
  else if tag = STATIC_ROUTE then (tryMinBytes tryToStaticRouteVec data tag 8).map .StaticRoute
  else if tag = TRAILER_ENCAPSULATION then (tryToBool data tag).map .TrailerEncapsulation
  else if tag = ARP_CACHE_TIMEOUT then (tryToU32 data tag).map .ArpCacheTimeout
  else if tag = ETHERNET_ENCAPSULATION then (tryToBool data tag).map .EthernetEncapsulation
  else if tag = TCP_DEFAULT_TTL then
    (tryToU8 data tag).bind fun v =>
      if v < 1 then .err (.OptionInvalidValueError tag)
      else .ok (.TcpDefaultTTL v)
  else if tag = TCP_KEEPALIVE_INTERVAL then (tryToU32 data tag).map .TcpKeepAliveInterval
  else if tag = TCP_KEEPALIVE_GARGABE then (tryToBool data tag).map .TcpKeepAliveGarbage
  else if tag = NETWORK_INFORMATION_SERVICE_DOMAIN then (tryMinBytes tryToAscii data tag 1).map .NetworkInformationServiceDomain
  else if tag = NETWORK_INFORMATION_SERVERS then (tryMinBytes tryToIpv4Vec data tag 4).map .NetworkInformationServers
  else if tag = NETWORK_TIME_PROTOCOL_SERVERS then (tryMinBytes tryToIpv4Vec data tag 4).map .NetworkTimeProtocolServers
  else if tag = VENDOR_SPECIFIC then (tryMinBytes tryToVecU8 data tag 1).map .VendorSpecific
  else if tag = NETBIOS_OVER_TCP_IP_NAME_SERVER then (tryMinBytes tryToIpv4Vec data tag 4).map .NetBiosOverTcpIpNameServer
  else if tag = NETBIOS_OVER_TCP_IP_DATAGRAM_DISTRIBUTION_SERVER then (tryMinBytes tryToIpv4Vec data tag 4).map .NetBiosOverTcpIpDatagramDistributionServer
  else if tag = NETBIOS_OVER_TCP_IP_NODE_TYPE then (tryToNodeType data tag).map .NetBiosOverTcpIpNodeType
  else if tag = NETBIOS_OVER_TCP_IP_SCOPE then (tryMinBytes tryToAscii data tag 1).map .NetBiosOverTcpIpScope
  else if tag = X_WINDOW_SYSTEM_FONT_SERVER then (tryMinBytes tryToIpv4Vec data tag 4).map .XWindowSystemFontServer
  else if tag = X_WINDOW_SYSTEM_DISPLAY_MANAGER then (tryMinBytes tryToIpv4Vec data tag 4).map .XWindowSystemDisplayManager
  else if tag = REQUESTED_IP_ADDRESS then (tryMinBytes tryToIpv4 data tag 4).map .RequestedIpAddress
  else if tag = IP_ADDRESS_LEASE_TIME then (tryMinBytes tryToU32 data tag 4).map .IpAddressLeaseTime
  else if tag = OPTION_OVERLOAD then (tryToOverload data tag).map .OptionOverload
  else if tag = MESSAGE_TYPE then (tryToMessageType data tag).map .MessageType
  else if tag = SERVER_IDENTIFIER then (tryToIpv4 data tag).map .ServerIdentifier
  else if tag = PARAMETER_REQUEST_LIST then (tryMinBytes tryToVecU8 data tag 1).map .ParameterRequestList
  else if tag = MESSAGE then (tryMinBytes tryToAscii data tag 1).map .Message
  else if tag = MAXIMUM_DHCP_MESSAGE_SIZE then
    (tryToU16 data tag).bind fun v =>
      if v < 576 then .err (.OptionInvalidValueError tag)
      else .ok (.MaximumDhcpMessageSize v)
  else if tag = RENEWAL_TIME_VALUE then (tryToU32 data tag).map .RenewalTimeValue
  else if tag = REBINDING_TIME_VALUE then (tryToU32 data tag).map .RebindingTimeValue
  else if tag = VENDOR_CLASS_IDENTIFIER then (tryMinBytes tryToVecU8 data tag 1).map .VendorClassIdentifier
  else if tag = CLIENT_IDENTIFIER then
    (idx data 0).map fun typ => .ClientIdentifier typ (data.drop 1)
  else if tag = NETWORK_INFORMATION_SERVICE_PLUS_DOMAIN then (tryMinBytes tryToAscii data tag 4).map .NetworkInformationServicePlusDomain
  else if tag = NETWORK_INFORMATION_SERVICE_PLUS_SERVERS then (tryMinBytes tryToIpv4Vec data tag 4).map .NetworkInformationServicePlusServer
  else if tag = TFTP_SERVER_NAME then (tryToAscii data tag).map .TftpServer
  else if tag = BOOT_FILE_NAME then (tryMinBytes tryToAscii data tag 1).map .BootFileName
  else if tag = MOBILE_IP_HOME_AGENT then (tryToIpv4Vec data tag).map .MobileIpHomeAgent
  else if tag = SMTP_SERVER then (tryMinBytes tryToIpv4Vec data tag 4).map .SmtpServer
  else if tag = POP3_SERVER then (tryMinBytes tryToIpv4Vec data tag 4).map .Pop3Server
  else if tag = NNTP_SERVER then (tryMinBytes tryToIpv4Vec data tag 4).map .NntpServer
  else if tag = WWW_SERVER then (tryMinBytes tryToIpv4Vec data tag 4).map .WwwServer
  else if tag = FINGER_SERVER then (tryMinBytes tryToIpv4Vec data tag 4).map .FingerServer
  else if tag = IRC_SERVER then (tryMinBytes tryToIpv4Vec data tag 4).map .IrcServer
  else if tag = STREET_TALK_SERVER then (tryMinBytes tryToIpv4Vec data tag 4).map .StreetTalkServer
  else if tag = STREET_TALK_DIRECTORY_ASSISTANCE then (tryMinBytes tryToIpv4Vec data tag 4).map .StreetTalkDirectoryAssistanceServer
  else if tag = END then .ok .End
  else if tag = RELAY_AGENT_INFORMATION then (tryToRelaySubs tag data).map .RelayAgentInformation
  else .ok (.Unknown tag data)

/-- `DhcpOption::to_bytes` of src/option.rs lines 828-919.  `Pad` and `End`
emit a single tag byte.  The `ClientIdentifier` arm clones `data`, prepends
`bytes.len()` (the length of `data` alone), then `typ`, then the tag, so its
length byte undercounts the payload by one.  `Unknown` prepends the payload
length and the stored tag. -/
def to_bytes : DhcpOption → List Nat
  | .Pad => [PAD]
  | .SubnetMask v => ipv4ToOptionBytes v SUBNET_MASK
  | .TimeOffset v => i32ToOptionBytes v TIME_OFFSET
  | .Router v => ipv4VecToOptionBytes v ROUTER
  | .TimeServer v => ipv4VecToOptionBytes v TIME_SERVER
  | .NameServer v => ipv4VecToOptionBytes v NAME_SERVER
  | .DomainNameServer v => ipv4VecToOptionBytes v DOMAIN_NAME_SERVER
  | .LogServer v => ipv4VecToOptionBytes v LOG_SERVER
  | .CookieServer v => ipv4VecToOptionBytes v COOKIE_SERVER
  | .LPRServer v => ipv4VecToOptionBytes v LPR_SERVER
  | .ImpressServer v => ipv4VecToOptionBytes v IMPRESS_SERVER
  | .ResourceLocationServer v => ipv4VecToOptionBytes v RESOURCE_LOCATION_SERVER
  | .HostName v => asciiToOptionBytes v HOST_NAME
  | .BootFileSize v => u16ToOptionBytes v BOOT_FILE_SIZE
  | .MeritDumpFile v => asciiToOptionBytes v MERIT_DUMP_FILE
  | .DomainName v => asciiToOptionBytes v DOMAIN_NAME
  | .SwapServer v => ipv4ToOptionBytes v SWAP_SERVER
  | .RootPath v => asciiToOptionBytes v ROOT_PATH
  | .ExtensionPath v => asciiToOptionBytes v EXTENSION_PATH
  | .IpForwarding v => boolToOptionBytes v IP_FORWARDING
  | .NonLocalSourceRouting v => boolToOptionBytes v NON_LOCAL_SOURCE_ROUTING
  | .PolicyFilter v => ipv4PairVecToOptionBytes (v.map fun m => (m.ipv4addr, m.mask)) POLICY_FILTER
  | .MaximumDatagramReassemblySize v => u16ToOptionBytes v MAXIMUM_DATAGRAM_REASSEMBLY_SIZE
  | .DefaultIpTTL v => u8ToOptionBytes v DEFAULT_IP_TTL
  | .PathMtuAgingTimeout v => u32ToOptionBytes v PATH_MTU_AGING_TIMEOUT
  | .PathMtuPlateauTable v => u16VecToOptionBytes v PATH_MTU_PLATEAU_TABLE
  | .InterfaceMtu v => u16ToOptionBytes v INTERFACE_MTU
  | .AllSubnetsLocal v => boolToOptionBytes v ALL_SUBNETS_LOCAL
  | .BroadcastAddress v => ipv4ToOptionBytes v BROADCAST_ADDRESS
  | .MaskSupplier v => boolToOptionBytes v MASK_SUPPLIER
  | .PerformRouterDiscovery v => boolToOptionBytes v PERFORM_ROUTER_DISCOVERY
  | .RouterSolicitationAddress v => ipv4ToOptionBytes v ROUTER_SOLICITATION_ADDRESS
  | .StaticRoute v => ipv4PairVecToOptionBytes (v.map fun r => (r.destination, r.router)) STATIC_ROUTE
  | .TrailerEncapsulation v => boolToOptionBytes v TRAILER_ENCAPSULATION
  | .ArpCacheTimeout v => u32ToOptionBytes v ARP_CACHE_TIMEOUT
  | .EthernetEncapsulation v => boolToOptionBytes v ETHERNET_ENCAPSULATION
  | .TcpDefaultTTL v => u8ToOptionBytes v TCP_DEFAULT_TTL
  | .TcpKeepAliveInterval v => u32ToOptionBytes v TCP_KEEPALIVE_INTERVAL
  | .TcpKeepAliveGarbage v => boolToOptionBytes v TCP_KEEPALIVE_GARGABE
  | .NetworkInformationServiceDomain v => asciiToOptionBytes v NETWORK_INFORMATION_SERVICE_DOMAIN
  | .NetworkInformationServers v => ipv4VecToOptionBytes v NETWORK_INFORMATION_SERVERS
  | .NetworkTimeProtocolServers v => ipv4VecToOptionBytes v NETWORK_TIME_PROTOCOL_SERVERS
  | .VendorSpecific v => u8VecToOptionBytes v VENDOR_SPECIFIC
  | .NetBiosOverTcpIpNameServer v => ipv4VecToOptionBytes v NETBIOS_OVER_TCP_IP_NAME_SERVER
  | .NetBiosOverTcpIpDatagramDistributionServer v => ipv4VecToOptionBytes v NETBIOS_OVER_TCP_IP_DATAGRAM_DISTRIBUTION_SERVER
  | .NetBiosOverTcpIpNodeType v => nodeTypeToOptionBytes v NETBIOS_OVER_TCP_IP_NODE_TYPE
  | .NetBiosOverTcpIpScope v => asciiToOptionBytes v NETBIOS_OVER_TCP_IP_SCOPE
  | .XWindowSystemFontServer v => ipv4VecToOptionBytes v X_WINDOW_SYSTEM_FONT_SERVER
  | .XWindowSystemDisplayManager v => ipv4VecToOptionBytes v X_WINDOW_SYSTEM_DISPLAY_MANAGER
  | .RequestedIpAddress v => ipv4ToOptionBytes v REQUESTED_IP_ADDRESS
  | .IpAddressLeaseTime v => u32ToOptionBytes v IP_ADDRESS_LEASE_TIME
  | .OptionOverload v => overloadToOptionBytes v OPTION_OVERLOAD
  | .MessageType v => messageTypeToOptionBytes v MESSAGE_TYPE
  | .ServerIdentifier v => ipv4ToOptionBytes v SERVER_IDENTIFIER
  | .ParameterRequestList v => u8VecToOptionBytes v PARAMETER_REQUEST_LIST
  | .Message v => asciiToOptionBytes v MESSAGE
  | .MaximumDhcpMessageSize v => u16ToOptionBytes v MAXIMUM_DHCP_MESSAGE_SIZE
  | .RenewalTimeValue v => u32ToOptionBytes v RENEWAL_TIME_VALUE
  | .RebindingTimeValue v => u32ToOptionBytes v REBINDING_TIME_VALUE
  | .VendorClassIdentifier v => u8VecToOptionBytes v VENDOR_CLASS_IDENTIFIER
  | .ClientIdentifier typ data => CLIENT_IDENTIFIER :: typ :: data.length % 256 :: data
  | .NetworkInformationServicePlusDomain v => asciiToOptionBytes v NETWORK_INFORMATION_SERVICE_PLUS_DOMAIN
  | .NetworkInformationServicePlusServer v => ipv4VecToOptionBytes v NETWORK_INFORMATION_SERVICE_PLUS_SERVERS
  | .TftpServer v => asciiToOptionBytes v TFTP_SERVER_NAME
  | .BootFileName v => asciiToOptionBytes v BOOT_FILE_NAME
  | .MobileIpHomeAgent v => ipv4VecToOptionBytes v MOBILE_IP_HOME_AGENT
  | .SmtpServer v => ipv4VecToOptionBytes v SMTP_SERVER
  | .Pop3Server v => ipv4VecToOptionBytes v POP3_SERVER
  | .NntpServer v => ipv4VecToOptionBytes v NNTP_SERVER
  | .WwwServer v => ipv4VecToOptionBytes v WWW_SERVER
  | .FingerServer v => ipv4VecToOptionBytes v FINGER_SERVER
  | .IrcServer v => ipv4VecToOptionBytes v IRC_SERVER
  | .StreetTalkServer v => ipv4VecToOptionBytes v STREET_TALK_SERVER
  | .StreetTalkDirectoryAssistanceServer v => ipv4VecToOptionBytes v STREET_TALK_DIRECTORY_ASSISTANCE
  | .End => [END]
  | .RelayAgentInformation v => relayVecToOptionBytes v RELAY_AGENT_INFORMATION
  | .Unknown t data => t :: data.length % 256 :: data

end DhcpOption

end Dhcplib

namespace Dhcplib

/-- `OPTIONS_SIZE` of src/option.rs. -/
def OPTIONS_SIZE : Nat := 256

/-- The tag-indexed option container `DhcpOptions` of src/option.rs:
a 256-slot vector, slot `t` holding at most one option. -/
structure DhcpOptions where
  options : List (Option DhcpOption)

namespace DhcpOptions

/-- `DhcpOptions::new_with_options`: collect the initial options into a map
keyed by `tag()` (later entries with the same tag overwrite earlier ones,
as with `HashMap::collect`), then lay out slots 0..255. -/
def new_with_options (init : List DhcpOption) : List (Option DhcpOption) :=
  (List.range OPTIONS_SIZE).map fun t => init.reverse.find? (fun o => o.tag = t)

/-- `DhcpOptions::new`. -/
def new : DhcpOptions := ⟨new_with_options []⟩

/-- `From<Vec<DhcpOption>> for DhcpOptions`. -/
def ofList (l : List DhcpOption) : DhcpOptions := ⟨new_with_options l⟩

/-- `DhcpOptions::to_bytes`: encode every occupied slot in slot order and
concatenate. -/
def to_bytes (s : DhcpOptions) : List Nat :=
  (s.options.filterMap fun o => o.map DhcpOption.to_bytes).flatten

/-- The TLV streaming loop of `DhcpOptions::from_bytes` (src/option.rs lines
255-272) acting on the current slot vector.  `bytes[0]` and `bytes[1]` are
raw indexing (panic when absent); tag 0 skips one byte; tag 255 stores `End`
and returns; otherwise `data = bytes[2..2+len]` (a slice that panics when
fewer than `len` bytes remain) is decoded by tag and stored at slot `tag`. -/
def fromBytesLoop : (bytes : List Nat) → List (Option DhcpOption) →
    RResult (List (Option DhcpOption))
  | [], _ => .panic
  | t :: rest, opts =>
    if t = PAD then fromBytesLoop rest opts
    else if t = END then .ok (opts.set END (some .End))
    else match rest with
      | [] => .panic
      | len :: rest2 =>
        if len ≤ rest2.length then
          let data := rest2.take len
          match DhcpOption.from_bytes t len data with
          | .ok o => fromBytesLoop (rest2.drop len) (opts.set t (some o))
          | .err e => .err e
          | .panic => .panic
        else .panic
  termination_by bytes => bytes.length
  decreasing_by
    · simp only [List.length_cons]; omega
    · simp only [List.length_drop, List.length_cons]; omega

/-- `DhcpOptions::from_bytes`. -/
def from_bytes (bytes : List Nat) : RResult DhcpOptions :=
  (fromBytesLoop bytes (new_with_options [])).map DhcpOptions.mk

/-- `DhcpOptions::option`: read the slot for a tag. -/
def option (s : DhcpOptions) (tag : Nat) : Option DhcpOption :=
  (s.options.get? tag).join

/-- `DhcpOptions::upsert`: overwrite the slot indexed by the option's own
`tag()`. -/
def upsert (s : DhcpOptions) (o : DhcpOption) : DhcpOptions :=
  ⟨s.options.set o.tag (some o)⟩

/-- `DhcpOptions::upsert_option`: no-op on `None`. -/
def upsert_option (s : DhcpOptions) (o : Option DhcpOption) : DhcpOptions :=
  match o with
  | some o => s.upsert o
  | none => s

/-- `DhcpOptions::merge`: every occupied slot of `other` overwrites the slot
indexed by that option's `tag()`. -/
def merge (s other : DhcpOptions) : DhcpOptions :=
  ⟨other.options.foldl
    (fun acc o => match o with
      | some o => acc.set o.tag (some o)
      | none => acc)
    s.options⟩

/-- `DhcpOptions::remove`. -/
def remove (s : DhcpOptions) (tag : Nat) : DhcpOptions :=
  ⟨s.options.set tag none⟩

end DhcpOptions

end Dhcplib

namespace Dhcplib

/-! ## Packet model (src/dhcp.rs) -/

/-- `DHCP_COOKIE`: the fixed 4-byte marker `[0x63, 0x82, 0x53, 0x63]`. -/
def DHCP_COOKIE : List Nat := [99, 130, 83, 99]

def MESSAGE_OPERATION_BOOT_REQUEST : Nat := 1
def MESSAGE_OPERATION_BOOT_REPLY : Nat := 2
def HARDWARE_ADDRESS_TYPE_ETHERNET : Nat := 1

/-- `MessageOperation` of src/dhcp.rs. -/
inductive MessageOperation where
  | BootRequest | BootReply
  deriving DecidableEq, Repr

/-- `From<MessageOperation> for u8`. -/
def MessageOperation.toByte : MessageOperation → Nat
  | .BootRequest => MESSAGE_OPERATION_BOOT_REQUEST
  | .BootReply => MESSAGE_OPERATION_BOOT_REPLY

/-- `TryFrom<&u8> for MessageOperation`. -/
def MessageOperation.try_from (v : Nat) : RResult MessageOperation :=
  if v = MESSAGE_OPERATION_BOOT_REQUEST then .ok .BootRequest
  else if v = MESSAGE_OPERATION_BOOT_REPLY then .ok .BootReply
  else .err .MessageOperationInvalid

/-- `HardwareAddressType` of src/dhcp.rs. -/
inductive HardwareAddressType where
  | Ethernet
  deriving DecidableEq, Repr

/-- `From<HardwareAddressType> for u8`. -/
def HardwareAddressType.toByte : HardwareAddressType → Nat
  | .Ethernet => 1

/-- `TryFrom<&u8> for HardwareAddressType`. -/
def HardwareAddressType.try_from (v : Nat) : RResult HardwareAddressType :=
  if v = HARDWARE_ADDRESS_TYPE_ETHERNET then .ok .Ethernet
  else .err .HardwareAddressTypeParseError

/-- `Flags` of src/dhcp.rs. -/
inductive Flags where
  | Unicast | Broadcast
  deriving DecidableEq, Repr

/-- `TryFrom<&[u8]> for Flags`: `[0,0]` or `[0,1]`, anything else is
`InvalidFlag`. -/
def Flags.try_from (v : List Nat) : RResult Flags :=
  if v = [0, 0] then .ok .Unicast
  else if v = [0, 1] then .ok .Broadcast
  else .err .InvalidFlag

/-- `From<Flags> for &[u8]`. -/
def Flags.toBytes : Flags → List Nat
  | .Unicast => [0, 0]
  | .Broadcast => [0, 1]

/-- `Cookie` of src/dhcp.rs. -/
inductive Cookie where
  | Dhcp
  deriving DecidableEq, Repr

/-- `TryFrom<&[u8]> for Cookie`. -/
def Cookie.try_from (v : List Nat) : RResult Cookie :=
  if v = DHCP_COOKIE then .ok .Dhcp else .err .CookieParseError

/-- `From<Cookie> for &[u8]`. -/
def Cookie.toBytes : Cookie → List Nat
  | .Dhcp => DHCP_COOKIE

/-- `macaddr::MacAddr` (wrapped by `MacAddress`, whose wrapper adds nothing
to the data): a 6-octet or an 8-octet hardware address. -/
inductive MacAddr where
  | V6 (bytes : List Nat)
  | V8 (bytes : List Nat)
  deriving DecidableEq, Repr

/-- `MacAddrSize::size`: `MAC_V6_SIZE` (6) or `MAC_V8_SIZE` (8). -/
def MacAddr.size : MacAddr → Nat
  | .V6 _ => 6
  | .V8 _ => 8

/-- `MacAddr::as_bytes`. -/
def MacAddr.asBytes : MacAddr → List Nat
  | .V6 b => b
  | .V8 b => b

/-- `MacAddr::is_v6`. -/
def MacAddr.isV6 : MacAddr → Bool
  | .V6 _ => true
  | .V8 _ => false

/-- `byte_to_char` of src/dhcp.rs: keep a byte iff it is nonzero and 7-bit
ASCII. -/
def byteKept (b : Nat) : Bool := b != 0 && decide (b < 128)

/-- `bytes_fill_zeroes` of src/dhcp.rs: pad with zero bytes up to `length`
(the in-range case of the `u8` loop bound). -/
def bytes_fill_zeroes (bytes : List Nat) (length : Nat) : List Nat :=
  bytes ++ List.replicate (length - bytes.length) 0

/-- The `DhcpPacket` struct of src/dhcp.rs.  Strings are byte lists. -/
structure DhcpPacket where
  operation : MessageOperation
  hardware_type : HardwareAddressType
  hops : Nat
  transaction_id : Nat
  seconds : Nat
  flags : Flags
  client : Ipv4
  your : Ipv4
  server : Ipv4
  gateway : Ipv4
  client_hardware : MacAddr
  server_hostname : List Nat
  filename : List Nat
  cookie : Cookie
  options : DhcpOptions

namespace DhcpPacket

/-- `DhcpPacket::option`. -/
def option (p : DhcpPacket) (tag : Nat) : Option DhcpOption :=
  p.options.option tag

/-- The accessor `DhcpPacket::hops` of src/dhcp.rs lines 348-350: its body
is `&self.operation`. -/
def hopsMethod (p : DhcpPacket) : MessageOperation := p.operation

/-- The accessor `DhcpPacket::transaction_id` of src/dhcp.rs lines 351-353:
its body is `&self.operation`. -/
def transactionIdMethod (p : DhcpPacket) : MessageOperation := p.operation

/-- The accessor `DhcpPacket::seconds` of src/dhcp.rs lines 354-356: its
body is `&self.operation`. -/
def secondsMethod (p : DhcpPacket) : MessageOperation := p.operation

/-- The accessor `DhcpPacket::flags` of src/dhcp.rs lines 357-359: its body
is `&self.operation`. -/
def flagsMethod (p : DhcpPacket) : MessageOperation := p.operation

end DhcpPacket

/-- `From<DhcpPacket> for Vec<u8>` (src/dhcp.rs lines 426-456): fixed
header, hardware address padded with 8 zero bytes plus 2 more for a 6-octet
address, NUL-padded hostname and filename, cookie, then the option bytes. -/
def packetToBytes (p : DhcpPacket) : List Nat :=
  [p.operation.toByte, p.hardware_type.toByte, p.client_hardware.size, p.hops]
    ++ u32ToBe p.transaction_id
    ++ u16ToBe p.seconds
    ++ p.flags.toBytes
    ++ p.client.octets
    ++ p.your.octets
    ++ p.server.octets
    ++ p.gateway.octets
    ++ p.client_hardware.asBytes
    ++ List.replicate 8 0
    ++ (if p.client_hardware.isV6 then [0, 0] else [])
    ++ bytes_fill_zeroes p.server_hostname 64
    ++ bytes_fill_zeroes p.filename 128
    ++ p.cookie.toBytes
    ++ p.options.to_bytes

/-- The fixed subrange `l[a..b]` of a buffer already known long enough. -/
def subrange (l : List Nat) (a b : Nat) : List Nat := (l.drop a).take (b - a)

/-- `ipv4_from_bytes` of src/dhcp.rs: `data[0..4]` with a caller-chosen
error for a length mismatch. -/
def ipv4_from_bytes (data : List Nat) (error : DhcpError) : RResult Ipv4 :=
  (slice data 0 4).bind fun f =>
    match f with
    | [a, b, c, d] => .ok ⟨a, b, c, d⟩
    | _ => .err error

/-- The `client_hardware` match of `TryFrom<&[u8]> for DhcpPacket`
(src/dhcp.rs lines 479-489): `value[2]` selects a 6-octet read of
`value[28..34]`, an 8-octet read of `value[28..36]`, or the
`HardwareAddressParseError`. -/
def clientHardwareFromBytes (value : List Nat) : RResult MacAddr :=
  match value.get? 2 with
  | some v =>
    if v = 6 then .ok (.V6 (subrange value 28 34))
    else if v = 8 then .ok (.V8 (subrange value 28 36))
    else .err .HardwareAddressParseError
  | none => .panic

/-- `TryFrom<&[u8]> for DhcpPacket` (src/dhcp.rs lines 459-496).  Inputs
shorter than 240 bytes fail with `InvalidPacketLength` (the length is cast
`as u8`).  After that guard every fixed-offset header slice is in bounds and
is written with `subrange`; fields are parsed in struct order with the
field-specific errors, and the option area `value[240..]` is handed to
`DhcpOptions::from_bytes`. -/
def packetFromBytes (value : List Nat) : RResult DhcpPacket :=
  if value.length < 240 then .err (.InvalidPacketLength (value.length % 256))
  else
    (MessageOperation.try_from (value.getD 0 0)).bind fun operation =>
    (HardwareAddressType.try_from (value.getD 1 0)).bind fun hardware_type =>
    let hops := value.getD 3 0
    (RResult.bind (match subrange value 4 8 with
      | [a, b, c, d] => RResult.ok (u32FromBe a b c d)
      | _ => RResult.err .TransactionIdParseError)) fun transaction_id =>
    (RResult.bind (match subrange value 8 10 with
      | [a, b] => RResult.ok (u16FromBe a b)
      | _ => RResult.err .SecondsParseError)) fun seconds =>
    (Flags.try_from (subrange value 10 12)).bind fun flags =>
    (ipv4_from_bytes (subrange value 12 16) .ClientAddressParseError).bind fun client =>
    (ipv4_from_bytes (subrange value 16 20) .YourAddressParseError).bind fun your =>
    (ipv4_from_bytes (subrange value 20 24) .ServerAddressParseError).bind fun server =>
    (ipv4_from_bytes (subrange value 24 28) .GatewayAddressParseError).bind fun gateway =>
    (clientHardwareFromBytes value).bind fun client_hardware =>
    let server_hostname := (subrange value 44 108).filter byteKept
    let filename := (subrange value 108 236).filter byteKept
    (Cookie.try_from (subrange value 236 240)).bind fun cookie =>
    (DhcpOptions.from_bytes (value.drop 240)).map fun options =>
      { operation, hardware_type, hops, transaction_id, seconds, flags,
        client, your, server, gateway, client_hardware, server_hostname,
        filename, cookie, options }

/-! ## Message constructors (src/messaging.rs)

`rand::random()` is passed in as the explicit `xid` argument. -/

namespace DhcpMessaging

/-- `DhcpMessaging::decline` (src/messaging.rs lines 77-105): a
`BootRequest` with `MessageType::Decline`, unicast, all addresses
unspecified. -/
def decline (client_mac_address : MacAddr) (xid : Nat) : DhcpPacket :=
  { operation := .BootRequest
    hardware_type := .Ethernet
    hops := 0
    transaction_id := xid
    seconds := 0
    flags := .Unicast
    client := .unspecified
    your := .unspecified
    server := .unspecified
    gateway := .unspecified
    client_hardware := client_mac_address
    server_hostname := []
    filename := []
    cookie := .Dhcp
    options := DhcpOptions.ofList [.MessageType .Decline] }

/-- `DhcpMessaging::release` (src/messaging.rs lines 107-137): the source
builds its option list as `vec![DhcpOption::MessageType(MessageType::Decline)]`
and wraps the result in a `DhcpDeclinePacket`; only the `client` address
distinguishes it from `decline`. -/
def release (client_mac_address : MacAddr) (client_ip_address : Ipv4) (xid : Nat) :
    DhcpPacket :=
  { operation := .BootRequest
    hardware_type := .Ethernet
    hops := 0
    transaction_id := xid
    seconds := 0
    flags := .Unicast
    client := client_ip_address
    your := .unspecified
    server := .unspecified
    gateway := .unspecified
    client_hardware := client_mac_address
    server_hostname := []
    filename := []
    cookie := .Dhcp
    options := DhcpOptions.ofList [.MessageType .Decline] }

end DhcpMessaging

end Dhcplib

namespace Dhcplib

/-! ## Concrete packets used by the accessor and buffer theorems -/

/-- A packet with hop count 5, transaction id 7, seconds 9, broadcast. -/
def demoPacketA : DhcpPacket :=
  { operation := .BootRequest
    hardware_type := .Ethernet
    hops := 5
    transaction_id := 7
    seconds := 9
    flags := .Broadcast
    client := ⟨1, 2, 3, 4⟩
    your := .unspecified
    server := .unspecified
    gateway := .unspecified
    client_hardware := .V6 [1, 2, 3, 4, 5, 6]
    server_hostname := []
    filename := []
    cookie := .Dhcp
    options := DhcpOptions.new }

/-- Like `demoPacketA` but with hop count 6, transaction id 8, seconds 10,
unicast. -/
def demoPacketB : DhcpPacket :=
  { demoPacketA with hops := 6, transaction_id := 8, seconds := 10, flags := .Unicast }

/-- A well-formed 240-byte buffer: valid fixed header (BootRequest,
Ethernet, hardware length 6, unicast, zero addresses, zero name fields, the
DHCP cookie) and an empty option area. -/
def header240 : List Nat := [1, 1, 6, 0] ++ List.replicate 232 0 ++ DHCP_COOKIE

/-! ## Theorems for the claims on the option set and packet model -/

/-- Claim C4: decoding a fixed-width option from a payload shorter than its
width does not return `OptionParseError(tag)`: the slice indexing
`self[0..n]` (and `data[0]` for the client identifier) panics instead.
Shown for a 4-byte IPv4 value, a 1-byte unsigned, a 2-byte unsigned, a
4-byte unsigned, a 4-byte signed, and the client identifier. -/
theorem c4_short_fixed_width_decode_panics :
    DhcpOption.from_bytes SUBNET_MASK 0 [] = .panic
    ∧ DhcpOption.from_bytes TCP_DEFAULT_TTL 0 [] = .panic
    ∧ DhcpOption.from_bytes BOOT_FILE_SIZE 1 [7] = .panic
    ∧ DhcpOption.from_bytes ARP_CACHE_TIMEOUT 3 [1, 2, 3] = .panic
    ∧ DhcpOption.from_bytes TIME_OFFSET 3 [1, 2, 3] = .panic
    ∧ DhcpOption.from_bytes CLIENT_IDENTIFIER 0 [] = .panic
    ∧ (RResult.panic (α := DhcpOption)) ≠ .err (.OptionParseError SUBNET_MASK) := by
  refine ⟨rfl, rfl, rfl, rfl, rfl, rfl, fun h => RResult.noConfusion h⟩

/-- Claim C5: a Relay Agent Information sub-option whose declared `sub_len`
exceeds the remaining bytes is not rejected with a parse error: the slice
`bytes[2..sub_len + 2]` panics.  Input `[1, 5]` declares a circuit-id
sub-option of 5 bytes with none available. -/
theorem c5_relay_sub_len_overrun_panics :
    tryToRelaySubs RELAY_AGENT_INFORMATION [1, 5] = .panic
    ∧ DhcpOption.from_bytes RELAY_AGENT_INFORMATION 2 [1, 5] = .panic := by
  have h : tryToRelaySubs RELAY_AGENT_INFORMATION [1, 5] = .panic := by
    simp [tryToRelaySubs]
  refine ⟨h, ?_⟩
  show (tryToRelaySubs RELAY_AGENT_INFORMATION [1, 5]).map _ = .panic
  rw [h]
  rfl

/-- Claim C6: no 240-byte buffer decodes successfully — even on a buffer
whose fixed header is entirely valid, `DhcpPacket::try_from` hands the empty
option area to `DhcpOptions::from_bytes`, whose loop reads `bytes[0]` from
the empty slice and panics instead of succeeding or returning an error. -/
theorem c6_exact_240_byte_buffer_panics :
    packetFromBytes header240 = .panic ∧ header240.length = 240 := by
  refine ⟨?_, rfl⟩
  have h : DhcpOptions.from_bytes (header240.drop 240) = .panic := by
    have e : header240.drop 240 = [] := rfl
    rw [e]
    simp [DhcpOptions.from_bytes, DhcpOptions.fromBytesLoop]
    rfl
  show (DhcpOptions.from_bytes (header240.drop 240)).map _ = .panic
  rw [h]
  rfl

/-- Claim C7: `DhcpMessaging::release` constructs a `BootRequest` packet
whose MESSAGE_TYPE option (tag 53) is `MessageType::Decline`, not
`MessageType::Release` (the function body is a copy of `decline` and even
returns a `DhcpDeclinePacket`). -/
theorem c7_release_constructor_sets_decline :
    ∀ (mac : MacAddr) (ip : Ipv4) (xid : Nat),
      (DhcpMessaging.release mac ip xid).operation = .BootRequest
      ∧ (DhcpMessaging.release mac ip xid).option MESSAGE_TYPE
          = some (.MessageType .Decline)
      ∧ (DhcpOption.MessageType .Decline) ≠ (DhcpOption.MessageType .Release) := by
  intro mac ip xid
  refine ⟨rfl, rfl, fun h => ?_⟩
  injection h with h2
  exact MessageType.noConfusion h2

/-- Claim C8: the typed header-field accessors `hops()`, `transaction_id()`,
`seconds()` and `flags()` all return the packet's `operation` field, so none
of them returns the field it is named after: two packets that differ in hop
count, transaction id, seconds and flags are indistinguishable through all
four accessors. -/
theorem c8_header_accessors_return_operation :
    (∀ p : DhcpPacket,
      p.hopsMethod = p.operation ∧ p.transactionIdMethod = p.operation
      ∧ p.secondsMethod = p.operation ∧ p.flagsMethod = p.operation)
    ∧ (demoPacketA.hopsMethod = demoPacketB.hopsMethod
        ∧ demoPacketA.hops ≠ demoPacketB.hops)
    ∧ (demoPacketA.transactionIdMethod = demoPacketB.transactionIdMethod
        ∧ demoPacketA.transaction_id ≠ demoPacketB.transaction_id)
    ∧ (demoPacketA.secondsMethod = demoPacketB.secondsMethod
        ∧ demoPacketA.seconds ≠ demoPacketB.seconds)
    ∧ (demoPacketA.flagsMethod = demoPacketB.flagsMethod
        ∧ demoPacketA.flags ≠ demoPacketB.flags) := by
  refine ⟨fun p => ⟨rfl, rfl, rfl, rfl⟩,
    ⟨rfl, by decide⟩, ⟨rfl, by decide⟩, ⟨rfl, by decide⟩, ⟨rfl, by decide⟩⟩

end Dhcplib

namespace Dhcplib

/-- Concatenating the encodings of the occupied slots (in slot order) equals
the concatenation over ascending indices `0 ≤ t < length` of each slot's
encoding, empty slots contributing `[]`. -/
theorem filterMap_flatten_eq_range_flatten :
    ∀ (opts : List (Option DhcpOption)),
      (opts.filterMap fun o => o.map DhcpOption.to_bytes).flatten
        = ((List.range opts.length).map
            fun t => ((opts.get? t).join).elim [] DhcpOption.to_bytes).flatten
  | [] => rfl
  | a :: rest => by
    have ih := filterMap_flatten_eq_range_flatten rest
    cases a with
    | none =>
      simpa [List.range_succ_eq_map, List.filterMap_cons, Function.comp_def,
        List.getElem?_cons_succ, Nat.succ_eq_add_one] using ih
    | some o =>
      simpa [List.range_succ_eq_map, List.filterMap_cons, Function.comp_def,
        List.getElem?_cons_succ, Nat.succ_eq_add_one] using ih

/-- `upsert` calls for options with different tags commute. -/
theorem upsert_comm (s : DhcpOptions) (x y : DhcpOption) (h : x.tag ≠ y.tag) :
    (s.upsert x).upsert y = (s.upsert y).upsert x := by
  unfold DhcpOptions.upsert
  exact congrArg DhcpOptions.mk (List.set_comm (some x) (some y) s.options h)

/-- Claim C10, counterexample: upserting the same collection of options in
two different orders does not always serialize identically — two `HostName`
options (same tag 12, different values) end with whichever was upserted
last, so the two insertion orders give different byte sequences. -/
theorem c10_counterexample_same_tag_order_dependent :
    ([DhcpOption.HostName [97], DhcpOption.HostName [98]].foldl
        DhcpOptions.upsert DhcpOptions.new).to_bytes
      ≠ ([DhcpOption.HostName [98], DhcpOption.HostName [97]].foldl
        DhcpOptions.upsert DhcpOptions.new).to_bytes := by
  decide

/-- Claim C10, amended: `DhcpOptions::to_bytes` concatenates the encoded
form of every occupied slot in ascending slot (tag) order, empty slots
contributing nothing; and two option sets built by upserting the same
collection of options — with pairwise distinct tags — in any two insertion
orders serialize to identical byte sequences. -/
theorem c10_to_bytes_ascending_and_order_independent :
    (∀ s : DhcpOptions, s.options.length = 256 →
      s.to_bytes = ((List.range 256).map
        fun t => (s.option t).elim [] DhcpOption.to_bytes).flatten)
    ∧ (∀ l₁ l₂ : List DhcpOption, l₁.Perm l₂ →
        l₁.Pairwise (fun a b => a.tag ≠ b.tag) →
        (l₁.foldl DhcpOptions.upsert DhcpOptions.new).to_bytes
          = (l₂.foldl DhcpOptions.upsert DhcpOptions.new).to_bytes) := by
  constructor
  · intro s h
    have e := filterMap_flatten_eq_range_flatten s.options
    rw [h] at e
    exact e
  · intro l₁ l₂ hp hpw
    have hsym : Symmetric (fun a b : DhcpOption => a.tag ≠ b.tag) :=
      fun _ _ h => Ne.symm h
    have comm : ∀ x ∈ l₁, ∀ y ∈ l₁, ∀ z : DhcpOptions,
        (z.upsert x).upsert y = (z.upsert y).upsert x := by
      intro x hx y hy z
      by_cases hxy : x = y
      · subst hxy; rfl
      · exact upsert_comm z x y (List.Pairwise.forall hsym hpw hx hy hxy)
    rw [hp.foldl_eq' comm DhcpOptions.new]

/-- Witness for C10's amended theorem: the empty option set satisfies the
ascending-order equation, and a `HostName` plus a `MessageType` option
(distinct tags 12 and 53) serialize identically in either insertion order. -/
theorem c10_witness :
    DhcpOptions.new.to_bytes
      = ((List.range 256).map
          fun t => (DhcpOptions.new.option t).elim [] DhcpOption.to_bytes).flatten
    ∧ ([DhcpOption.HostName [104], DhcpOption.MessageType .Discover].foldl
        DhcpOptions.upsert DhcpOptions.new).to_bytes
      = ([DhcpOption.MessageType .Discover, DhcpOption.HostName [104]].foldl
        DhcpOptions.upsert DhcpOptions.new).to_bytes :=
  ⟨c10_to_bytes_ascending_and_order_independent.1 DhcpOptions.new (by
      simp [DhcpOptions.new, DhcpOptions.new_with_options, OPTIONS_SIZE]),
   c10_to_bytes_ascending_and_order_independent.2 _ _
      (List.Perm.swap (DhcpOption.MessageType .Discover) (DhcpOption.HostName [104]) [])
      (by simp [DhcpOption.tag, HOST_NAME, MESSAGE_TYPE])⟩

end Dhcplib

namespace Dhcplib

/-- Like `header240` but with hardware-length byte 7 at offset 2. -/
def header240bad : List Nat := [1, 1, 7, 0] ++ List.replicate 232 0 ++ DHCP_COOKIE

/-- Like `header240` but with hardware-length byte 8 at offset 2. -/
def header240v8 : List Nat := [1, 1, 8, 0] ++ List.replicate 232 0 ++ DHCP_COOKIE

/-- `demoPacketA` with an 8-octet hardware address. -/
def demoPacket8 : DhcpPacket :=
  { demoPacketA with client_hardware := .V8 [1, 2, 3, 4, 5, 6, 7, 8] }

/-- Claim C9: hardware-address wire handling.  Decode: a hardware-length
byte of 6 at offset 2 reads the 6 octets at 28..34, a value of 8 reads the
8 octets at 28..36, and any other value yields `HardwareAddressParseError`
(shown both for the `client_hardware` match and for the full packet decoder
on a buffer with length byte 7).  Encode: serialization places the 6 octets
followed by 10 zero bytes, respectively the 8 octets followed by 8 zero
bytes, at offsets 28..44. -/
theorem c9_hardware_address_wire_handling :
    (∀ v : List Nat, 240 ≤ v.length →
      (v.get? 2 = some 6 → clientHardwareFromBytes v = .ok (.V6 (subrange v 28 34)))
      ∧ (v.get? 2 = some 8 → clientHardwareFromBytes v = .ok (.V8 (subrange v 28 36)))
      ∧ (∀ x, v.get? 2 = some x → x ≠ 6 → x ≠ 8 →
          clientHardwareFromBytes v = .err .HardwareAddressParseError))
    ∧ (∀ (p : DhcpPacket) (b : List Nat), p.client_hardware = .V6 b → b.length = 6 →
        subrange (packetToBytes p) 28 44 = b ++ List.replicate 10 0)
    ∧ (∀ (p : DhcpPacket) (b : List Nat), p.client_hardware = .V8 b → b.length = 8 →
        subrange (packetToBytes p) 28 44 = b ++ List.replicate 8 0)
    ∧ packetFromBytes header240bad = .err .HardwareAddressParseError := by
  refine ⟨?_, ?_, ?_, ?_⟩
  · intro v _
    refine ⟨fun h6 => ?_, fun h8 => ?_, fun x hx hx6 hx8 => ?_⟩
    · rw [List.get?_eq_getElem?] at h6
      simp [clientHardwareFromBytes, h6]
    · rw [List.get?_eq_getElem?] at h8
      simp [clientHardwareFromBytes, h8]
    · rw [List.get?_eq_getElem?] at hx
      simp [clientHardwareFromBytes, hx, hx6, hx8]
  · intro p b hb hlen
    cases hf : p.flags <;>
      simp [packetToBytes, subrange, hb, hf, MacAddr.asBytes, MacAddr.isV6,
        MacAddr.size, u32ToBe, u16ToBe, Ipv4.octets, Flags.toBytes,
        List.drop_append_eq_append_drop, List.take_append_eq_append_take,
        List.take_of_length_le, hlen, List.take_replicate]
  · intro p b hb hlen
    cases hf : p.flags <;>
      simp [packetToBytes, subrange, hb, hf, MacAddr.asBytes, MacAddr.isV6,
        MacAddr.size, u32ToBe, u16ToBe, Ipv4.octets, Flags.toBytes,
        List.drop_append_eq_append_drop, List.take_append_eq_append_take,
        List.take_of_length_le, hlen, List.take_replicate]
  · rfl

/-- Witness for C9 at concrete inputs: `header240` (length byte 6),
`header240v8` (length byte 8), `header240bad` (length byte 7), and the two
demo packets for the serialized 28..44 window. -/
theorem c9_witness :
    clientHardwareFromBytes header240 = .ok (.V6 (subrange header240 28 34))
    ∧ clientHardwareFromBytes header240v8 = .ok (.V8 (subrange header240v8 28 36))
    ∧ clientHardwareFromBytes header240bad = .err .HardwareAddressParseError
    ∧ subrange (packetToBytes demoPacketA) 28 44
        = [1, 2, 3, 4, 5, 6] ++ List.replicate 10 0
    ∧ subrange (packetToBytes demoPacket8) 28 44
        = [1, 2, 3, 4, 5, 6, 7, 8] ++ List.replicate 8 0 :=
  ⟨((c9_hardware_address_wire_handling.1 header240 (by decide)).1 (by decide)),
   ((c9_hardware_address_wire_handling.1 header240v8 (by decide)).2.1 (by decide)),
   ((c9_hardware_address_wire_handling.1 header240bad (by decide)).2.2 7
      (by decide) (by decide) (by decide)),
   c9_hardware_address_wire_handling.2.1 demoPacketA [1, 2, 3, 4, 5, 6] rfl rfl,
   c9_hardware_address_wire_handling.2.2.1 demoPacket8 [1, 2, 3, 4, 5, 6, 7, 8] rfl rfl⟩

end Dhcplib

namespace Dhcplib

/-- Reading the TLV frame emitted by `DhcpOption::to_bytes` the way the
stream parser `DhcpOptions::from_bytes` does: first byte is the tag, second
the declared length, and the payload is the declared number of following
bytes, handed to the tag-dispatched decoder `DhcpOption::from_bytes`. -/
def tlvDecode (bytes : List Nat) : RResult DhcpOption :=
  match bytes with
  | t :: l :: rest => DhcpOption.from_bytes t l (rest.take l)
  | _ => .panic

/-- A tag followed by a correct length byte and at most 255 payload bytes is
a well-formed TLV frame: the decoder receives exactly the payload. -/
theorem tlvDecode_lv (t : Nat) (body : List Nat) (h : body.length ≤ 255) :
    tlvDecode (t :: body.length % 256 :: body)
      = DhcpOption.from_bytes t body.length body := by
  have e : body.length % 256 = body.length := Nat.mod_eq_of_lt (by omega)
  simp only [tlvDecode, e, List.take_length]

/-- Claim C2, counterexample: the `ClientIdentifier` encoding does not have
the form `[tag, length, payload...]` with the length byte counting the
payload: `to_bytes` of the client identifier with type 0 and empty data is
`[61, 0, 0]`, whose second byte 0 does not equal the length 1 of the
payload `[0]` that follows it (no choice of payload fits). -/
theorem c2_counterexample_client_identifier :
    ¬ ∃ (t : Nat) (p : List Nat),
      DhcpOption.to_bytes (.ClientIdentifier 0 []) = t :: p.length :: p := by
  rintro ⟨t, p, h⟩
  have h' : ([61, 0, 0] : List Nat) = t :: p.length :: p := h
  injection h' with h1 h2
  injection h2 with h3 h4
  rw [← h4] at h3
  simp at h3

/-- Claim C2, amended: for every option other than `Pad`, `End` and
`ClientIdentifier`, `to_bytes` (when its payload fits a length byte,
i.e. the output has at most 257 bytes) has the form
`[tag, length, payload...]` with the length byte equal to the payload byte
count.  `ClientIdentifier` instead emits `[61, typ, data.len(), data...]` —
its `typ` byte sits where the length belongs and undercounts the payload by
one — while `Pad` and `End` are single tag bytes with no length at all. -/
theorem c2_length_byte_counts_payload :
    (∀ o : DhcpOption, o ≠ .Pad → o ≠ .End →
      (∀ typ data, o ≠ .ClientIdentifier typ data) →
      (DhcpOption.to_bytes o).length ≤ 257 →
      ∃ (t : Nat) (p : List Nat), DhcpOption.to_bytes o = t :: p.length :: p)
    ∧ (∀ (typ : Nat) (data : List Nat), data.length ≤ 255 →
        DhcpOption.to_bytes (.ClientIdentifier typ data)
          = CLIENT_IDENTIFIER :: typ :: data.length :: data)
    ∧ DhcpOption.to_bytes .Pad = [PAD]
    ∧ DhcpOption.to_bytes .End = [END] := by
  have lv_shape : ∀ (tag k : Nat) (body : List Nat), k = body.length →
      ∃ (t : Nat) (p : List Nat), tag :: k :: body = t :: p.length :: p :=
    fun tag k body h => ⟨tag, body, by rw [h]⟩
  refine ⟨?_, ?_, rfl, rfl⟩
  · intro o hPad hEnd hCI h257
    cases o <;>
      first
        | exact absurd rfl hPad
        | exact absurd rfl hEnd
        | exact absurd rfl (hCI _ _)
        | (simp only [DhcpOption.to_bytes, ipv4ToOptionBytes, ipv4VecToOptionBytes,
            asciiToOptionBytes, u8VecToOptionBytes, ipv4PairVecToOptionBytes,
            u16VecToOptionBytes, relayVecToOptionBytes, u16ToOptionBytes,
            u32ToOptionBytes, i32ToOptionBytes, boolToOptionBytes, u8ToOptionBytes,
            nodeTypeToOptionBytes, overloadToOptionBytes, messageTypeToOptionBytes,
            List.length_cons] at h257 ⊢
           refine lv_shape _ _ _ ?_
           first
             | rfl
             | omega)
  · intro typ data hlen
    show CLIENT_IDENTIFIER :: typ :: data.length % 256 :: data = _
    rw [Nat.mod_eq_of_lt (by omega)]

/-- Witness for C2's amended theorem: a one-character host name has the
TLV shape, and `ClientIdentifier` with type 1 and data `[2, 3]` encodes to
`[61, 1, 2, 2, 3]`. -/
theorem c2_witness :
    (∃ (t : Nat) (p : List Nat),
      DhcpOption.to_bytes (.HostName [104]) = t :: p.length :: p)
    ∧ DhcpOption.to_bytes (.ClientIdentifier 1 [2, 3]) = [61, 1, 2, 2, 3] :=
  ⟨c2_length_byte_counts_payload.1 (.HostName [104])
      (fun h => DhcpOption.noConfusion h) (fun h => DhcpOption.noConfusion h)
      (fun _ _ h => DhcpOption.noConfusion h) (by decide),
   c2_length_byte_counts_payload.2.1 1 [2, 3] (by decide)⟩

end Dhcplib

namespace Dhcplib

/-- The data carried by a relay sub-option. -/
def relaySubData : RelayAgentInformationSubOption → List Nat
  | .AgentCircuit d => d
  | .AgentRemote d => d
  | .Unknown d => d

/-- The sub-tag byte written for a relay sub-option. -/
def relaySubTag : RelayAgentInformationSubOption → Nat
  | .AgentCircuit _ => RELAY_AGENT_CIRCUIT
  | .AgentRemote _ => RELAY_AGENT_REMOTE
  | .Unknown _ => 0

/-- A value of an option kind decodes back from its own encoding; the
validity side conditions are exactly the constraints the decoder enforces
(nonempty lists or strings where a minimum length is checked, the ≥ 576 and
≥ 1 value bounds, machine-integer ranges, and payloads small enough for the
`as u8` length byte), plus a genuinely unknown tag for the `Unknown`
fallback.  `Pad`, `End` (bare tag bytes, no TLV frame) and
`ClientIdentifier` (whose encoding misplaces the length byte, see the C1
counterexample) are excluded. -/
def wellFormed : DhcpOption → Bool
  | .Pad => false
  | .SubnetMask _ => true
  | .TimeOffset v => decide (-2147483648 ≤ v) && decide (v < 2147483648)
  | .Router v => decide (1 ≤ v.length) && decide (v.length ≤ 63)
  | .TimeServer v => decide (1 ≤ v.length) && decide (v.length ≤ 63)
  | .NameServer v => decide (1 ≤ v.length) && decide (v.length ≤ 63)
  | .DomainNameServer v => decide (1 ≤ v.length) && decide (v.length ≤ 63)
  | .LogServer v => decide (1 ≤ v.length) && decide (v.length ≤ 63)
  | .CookieServer v => decide (1 ≤ v.length) && decide (v.length ≤ 63)
  | .LPRServer v => decide (1 ≤ v.length) && decide (v.length ≤ 63)
  | .ImpressServer v => decide (1 ≤ v.length) && decide (v.length ≤ 63)
  | .ResourceLocationServer v => decide (1 ≤ v.length) && decide (v.length ≤ 63)
  | .HostName v => decide (1 ≤ v.length) && decide (v.length ≤ 255) && v.all (· < 128)
  | .BootFileSize v => decide (v < 65536)
  | .MeritDumpFile v => decide (1 ≤ v.length) && decide (v.length ≤ 255) && v.all (· < 128)
  | .DomainName v => decide (1 ≤ v.length) && decide (v.length ≤ 255) && v.all (· < 128)
  | .SwapServer _ => true
  | .RootPath v => decide (1 ≤ v.length) && decide (v.length ≤ 255) && v.all (· < 128)
  | .ExtensionPath v => decide (1 ≤ v.length) && decide (v.length ≤ 255) && v.all (· < 128)
  | .IpForwarding _ => true
  | .NonLocalSourceRouting _ => true
  | .PolicyFilter v => decide (1 ≤ v.length) && decide (v.length ≤ 31)
  | .MaximumDatagramReassemblySize v => decide (576 ≤ v) && decide (v < 65536)
  | .DefaultIpTTL v => decide (v < 256)
  | .PathMtuAgingTimeout v => decide (v < 4294967296)
  | .PathMtuPlateauTable v =>
      decide (1 ≤ v.length) && decide (v.length ≤ 127) && v.all (· < 65536)
  | .InterfaceMtu v => decide (v < 65536)
  | .AllSubnetsLocal _ => true
  | .BroadcastAddress _ => true
  | .MaskSupplier _ => true
  | .PerformRouterDiscovery _ => true
  | .RouterSolicitationAddress _ => true
  | .StaticRoute v => decide (1 ≤ v.length) && decide (v.length ≤ 31)
  | .TrailerEncapsulation _ => true
  | .ArpCacheTimeout v => decide (v < 4294967296)
  | .EthernetEncapsulation _ => true
  | .TcpDefaultTTL v => decide (1 ≤ v) && decide (v < 256)
  | .TcpKeepAliveInterval v => decide (v < 4294967296)
  | .TcpKeepAliveGarbage _ => true
  | .NetworkInformationServiceDomain v =>
      decide (1 ≤ v.length) && decide (v.length ≤ 255) && v.all (· < 128)
  | .NetworkInformationServers v => decide (1 ≤ v.length) && decide (v.length ≤ 63)
  | .NetworkTimeProtocolServers v => decide (1 ≤ v.length) && decide (v.length ≤ 63)
  | .VendorSpecific v => decide (1 ≤ v.length) && decide (v.length ≤ 255)
  | .NetBiosOverTcpIpNameServer v => decide (1 ≤ v.length) && decide (v.length ≤ 63)
  | .NetBiosOverTcpIpDatagramDistributionServer v =>
      decide (1 ≤ v.length) && decide (v.length ≤ 63)
  | .NetBiosOverTcpIpNodeType _ => true
  | .NetBiosOverTcpIpScope v =>
      decide (1 ≤ v.length) && decide (v.length ≤ 255) && v.all (· < 128)
  | .XWindowSystemFontServer v => decide (1 ≤ v.length) && decide (v.length ≤ 63)
  | .XWindowSystemDisplayManager v => decide (1 ≤ v.length) && decide (v.length ≤ 63)
  | .RequestedIpAddress _ => true
  | .IpAddressLeaseTime v => decide (v < 4294967296)
  | .OptionOverload _ => true
  | .MessageType _ => true
  | .ServerIdentifier _ => true
  | .ParameterRequestList v => decide (1 ≤ v.length) && decide (v.length ≤ 255)
  | .Message v => decide (1 ≤ v.length) && decide (v.length ≤ 255) && v.all (· < 128)
  | .MaximumDhcpMessageSize v => decide (576 ≤ v) && decide (v < 65536)
  | .RenewalTimeValue v => decide (v < 4294967296)
  | .RebindingTimeValue v => decide (v < 4294967296)
  | .VendorClassIdentifier v => decide (1 ≤ v.length) && decide (v.length ≤ 255)
  | .ClientIdentifier _ _ => false
  | .NetworkInformationServicePlusDomain v =>
      decide (4 ≤ v.length) && decide (v.length ≤ 255) && v.all (· < 128)
  | .NetworkInformationServicePlusServer v => decide (1 ≤ v.length) && decide (v.length ≤ 63)
  | .TftpServer v => decide (v.length ≤ 255) && v.all (· < 128)
  | .BootFileName v => decide (1 ≤ v.length) && decide (v.length ≤ 255) && v.all (· < 128)
  | .MobileIpHomeAgent v => decide (v.length ≤ 63)
  | .SmtpServer v => decide (1 ≤ v.length) && decide (v.length ≤ 63)
  | .Pop3Server v => decide (1 ≤ v.length) && decide (v.length ≤ 63)
  | .NntpServer v => decide (1 ≤ v.length) && decide (v.length ≤ 63)
  | .WwwServer v => decide (1 ≤ v.length) && decide (v.length ≤ 63)
  | .FingerServer v => decide (1 ≤ v.length) && decide (v.length ≤ 63)
  | .IrcServer v => decide (1 ≤ v.length) && decide (v.length ≤ 63)
  | .StreetTalkServer v => decide (1 ≤ v.length) && decide (v.length ≤ 63)
  | .StreetTalkDirectoryAssistanceServer v => decide (1 ≤ v.length) && decide (v.length ≤ 63)
  | .End => false
  | .RelayAgentInformation v =>
      decide (1 ≤ v.length)
        && v.all (fun r => decide ((relaySubData r).length ≤ 255))
        && decide (((v.map relaySubBytes).flatten).length ≤ 255)
  | .Unknown t data =>
      (decide (62 ≤ t) && decide (t ≤ 63) || decide (77 ≤ t) && decide (t ≤ 81)
        || decide (83 ≤ t) && decide (t ≤ 254))
        && decide (data.length ≤ 255)

/-- The flattened octets of an address list occupy 4 bytes per address. -/
theorem flatten_octets_length :
    ∀ ips : List Ipv4, ((ips.map Ipv4.octets).flatten).length = 4 * ips.length
  | [] => rfl
  | ip :: rest => by
    simp [flatten_octets_length rest, Ipv4.octets]
    omega

/-- Chunking the flattened octets recovers the address list. -/
theorem ipv4Chunks_encode :
    ∀ ips : List Ipv4, ipv4Chunks ((ips.map Ipv4.octets).flatten) = ips
  | [] => rfl
  | ip :: rest => by
    simpa [Ipv4.octets, ipv4Chunks] using ipv4Chunks_encode rest

/-- The flattened octets of an address-pair list occupy 8 bytes per pair. -/
theorem flatten_pair_octets_length :
    ∀ ps : List (Ipv4 × Ipv4),
      ((ps.map fun p => p.1.octets ++ p.2.octets).flatten).length = 8 * ps.length
  | [] => rfl
  | p :: rest => by
    have ih := flatten_pair_octets_length rest
    simp only [List.map_cons, List.flatten_cons, List.length_append, ih]
    simp [Ipv4.octets]
    omega

/-- Chunking the flattened pair octets recovers the pair list. -/
theorem ipv4PairChunks_encode :
    ∀ ps : List (Ipv4 × Ipv4),
      ipv4PairChunks ((ps.map fun p => p.1.octets ++ p.2.octets).flatten) = ps
  | [] => rfl
  | p :: rest => by
    simpa [Ipv4.octets, ipv4PairChunks] using ipv4PairChunks_encode rest

/-- The flattened big-endian bytes of a `u16` list occupy 2 bytes per value. -/
theorem flatten_u16_length :
    ∀ vs : List Nat, ((vs.map u16ToBe).flatten).length = 2 * vs.length
  | [] => rfl
  | v :: rest => by
    simp [flatten_u16_length rest, u16ToBe]
    omega

/-- Big-endian `u16` bytes decode back to the value. -/
theorem u16_be_roundtrip (v : Nat) (h : v < 65536) :
    u16FromBe (v / 256 % 256) (v % 256) = v := by
  unfold u16FromBe
  omega

/-- Chunking the flattened `u16` bytes recovers the list of values. -/
theorem u16Chunks_encode :
    ∀ vs : List Nat, (∀ x ∈ vs, x < 65536) →
      u16Chunks ((vs.map u16ToBe).flatten) = vs
  | [], _ => rfl
  | v :: rest, h => by
    have hv : v < 65536 := h v (List.mem_cons_self v rest)
    have ih := u16Chunks_encode rest (fun x hx => h x (List.mem_cons_of_mem v hx))
    simp [u16ToBe, u16Chunks, ih, u16_be_roundtrip v hv]

/-- Big-endian `u32` bytes decode back to the value. -/
theorem u32_be_roundtrip (v : Nat) (h : v < 4294967296) :
    u32FromBe (v / 16777216 % 256) (v / 65536 % 256) (v / 256 % 256) (v % 256) = v := by
  unfold u32FromBe
  omega

/-- Two's-complement big-endian `i32` bytes decode back to the value. -/
theorem i32_be_roundtrip (v : Int) (h1 : -2147483648 ≤ v) (h2 : v < 2147483648) :
    i32FromBe ((v % 4294967296).toNat / 16777216 % 256)
      ((v % 4294967296).toNat / 65536 % 256)
      ((v % 4294967296).toNat / 256 % 256)
      ((v % 4294967296).toNat % 256) = v := by
  have hn : (v % 4294967296).toNat < 4294967296 := by omega
  unfold i32FromBe
  rw [u32_be_roundtrip _ hn]
  show (if (v % 4294967296).toNat < 2147483648
      then ((v % 4294967296).toNat : Int)
      else ((v % 4294967296).toNat : Int) - 4294967296) = v
  by_cases hc : (v % 4294967296).toNat < 2147483648
  · rw [if_pos hc]
    omega
  · rw [if_neg hc]
    omega

end Dhcplib

namespace Dhcplib

/-- Encoding one sub-option, with its length byte in collapsed form. -/
theorem relaySubBytes_eq (s : RelayAgentInformationSubOption)
    (h : (relaySubData s).length ≤ 255) :
    relaySubBytes s = relaySubTag s :: (relaySubData s).length :: relaySubData s := by
  cases s with
  | AgentCircuit d =>
    simp only [relaySubData] at h
    simp only [relaySubBytes, relaySubTag, relaySubData]
    rw [Nat.mod_eq_of_lt (by omega)]
  | AgentRemote d =>
    simp only [relaySubData] at h
    simp only [relaySubBytes, relaySubTag, relaySubData]
    rw [Nat.mod_eq_of_lt (by omega)]
  | Unknown d =>
    simp only [relaySubData] at h
    simp only [relaySubBytes, relaySubTag, relaySubData]
    rw [Nat.mod_eq_of_lt (by omega)]

/-- Dispatching on the written sub-tag recovers the sub-option. -/
theorem mkRelaySub_encode (s : RelayAgentInformationSubOption) :
    mkRelaySub (relaySubTag s) (relaySubData s) = s := by
  cases s <;> rfl

/-- Dropping a sub-option entry from the stream leaves the remaining
entries. -/
theorem drop_entry (a b : Nat) (x y : List Nat) :
    (a :: b :: (x ++ y)).drop (x.length + 2) = y := by
  show (a :: b :: (x ++ y)).drop (x.length + 1 + 1) = y
  rw [List.drop_succ_cons, List.drop_succ_cons, List.drop_left]

/-- The sub-option loop of the relay-agent decoder inverts the sub-option
encoder on a nonempty list of sub-options whose data fields each fit their
length byte. -/
theorem relay_roundtrip (tag : Nat) :
    ∀ subs : List RelayAgentInformationSubOption, subs ≠ [] →
      (∀ r ∈ subs, (relaySubData r).length ≤ 255) →
      tryToRelaySubs tag ((subs.map relaySubBytes).flatten) = .ok subs
  | [], h, _ => absurd rfl h
  | s :: rest, _, hb => by
    have hs : (relaySubData s).length ≤ 255 := hb s (List.mem_cons_self s rest)
    have hrest : ∀ r ∈ rest, (relaySubData r).length ≤ 255 :=
      fun r hr => hb r (List.mem_cons_of_mem s hr)
    have hflat : ((s :: rest).map relaySubBytes).flatten
        = relaySubTag s :: (relaySubData s).length
            :: (relaySubData s ++ (rest.map relaySubBytes).flatten) := by
      simp only [List.map_cons, List.flatten_cons, relaySubBytes_eq s hs,
        List.cons_append]
    rw [hflat]
    simp only [tryToRelaySubs]
    rw [dif_pos (by simp only [List.length_cons, List.length_append]; omega)]
    rw [List.take_left, drop_entry, mkRelaySub_encode]
    cases rest with
    | nil =>
      simp
    | cons r rest2 =>
      have hr255 : (relaySubData r).length ≤ 255 :=
        hrest r (List.mem_cons_self r rest2)
      have ih := relay_roundtrip tag (r :: rest2) (List.cons_ne_nil r rest2) hrest
      have hemp : (((r :: rest2).map relaySubBytes).flatten).isEmpty = false := by
        rw [show ((r :: rest2).map relaySubBytes).flatten
            = relaySubBytes r ++ (rest2.map relaySubBytes).flatten by simp]
        rw [relaySubBytes_eq r hr255]
        rfl
      simp only [hemp, Bool.false_eq_true, if_false]
      rw [ih]
      rfl

/-- Mapping a mask list to pairs and back is the identity. -/
theorem map_pair_mask :
    ∀ v : List Ipv4WithMask,
      ((v.map fun m => ((m.ipv4addr, m.mask) : Ipv4 × Ipv4)).map
        fun p => (⟨p.1, p.2⟩ : Ipv4WithMask)) = v
  | [] => rfl
  | m :: rest => by simp [map_pair_mask rest]

/-- Mapping a static-route list to pairs and back is the identity. -/
theorem map_pair_route :
    ∀ v : List StaticRoute,
      ((v.map fun r => ((r.destination, r.router) : Ipv4 × Ipv4)).map
        fun p => (⟨p.1, p.2⟩ : StaticRoute)) = v
  | [] => rfl
  | r :: rest => by simp [map_pair_route rest]

/-- Round trip for an option kind decoded through
`try_from_option_min_bytes::<Vec<Ipv4Addr>>(tag, 4)`. -/
theorem roundtrip_ipv4vec (t : Nat) (C : List Ipv4 → DhcpOption)
    (hdis : ∀ l data, DhcpOption.from_bytes t l data
      = (tryMinBytes tryToIpv4Vec data t 4).map C)
    (ips : List Ipv4) (h1 : 1 ≤ ips.length) (h2 : ips.length ≤ 63) :
    tlvDecode (ipv4VecToOptionBytes ips t) = .ok (C ips) := by
  have hlen := flatten_octets_length ips
  simp only [ipv4VecToOptionBytes]
  rw [tlvDecode_lv _ _ (by omega), hdis]
  unfold tryMinBytes
  rw [if_neg (by omega)]
  unfold tryToIpv4Vec
  rw [if_pos (by omega), ipv4Chunks_encode]
  rfl

/-- Round trip for the home-agent option, whose decoder has no minimum. -/
theorem roundtrip_ipv4vec_nomin (t : Nat) (C : List Ipv4 → DhcpOption)
    (hdis : ∀ l data, DhcpOption.from_bytes t l data = (tryToIpv4Vec data t).map C)
    (ips : List Ipv4) (h2 : ips.length ≤ 63) :
    tlvDecode (ipv4VecToOptionBytes ips t) = .ok (C ips) := by
  have hlen := flatten_octets_length ips
  simp only [ipv4VecToOptionBytes]
  rw [tlvDecode_lv _ _ (by omega), hdis]
  unfold tryToIpv4Vec
  rw [if_pos (by omega), ipv4Chunks_encode]
  rfl

/-- Round trip for an ASCII option kind with a declared minimum length. -/
theorem roundtrip_ascii_min (t m : Nat) (C : List Nat → DhcpOption)
    (hdis : ∀ l data, DhcpOption.from_bytes t l data
      = (tryMinBytes tryToAscii data t m).map C)
    (s : List Nat) (hm : m ≤ s.length) (h255 : s.length ≤ 255)
    (hall : s.all (· < 128) = true) :
    tlvDecode (asciiToOptionBytes s t) = .ok (C s) := by
  simp only [asciiToOptionBytes]
  rw [tlvDecode_lv _ _ h255, hdis]
  unfold tryMinBytes
  rw [if_neg (by omega)]
  unfold tryToAscii
  rw [if_pos hall]
  rfl

/-- Round trip for the TFTP server name, whose decoder has no minimum. -/
theorem roundtrip_ascii_nomin (t : Nat) (C : List Nat → DhcpOption)
    (hdis : ∀ l data, DhcpOption.from_bytes t l data = (tryToAscii data t).map C)
    (s : List Nat) (h255 : s.length ≤ 255) (hall : s.all (· < 128) = true) :
    tlvDecode (asciiToOptionBytes s t) = .ok (C s) := by
  simp only [asciiToOptionBytes]
  rw [tlvDecode_lv _ _ h255, hdis]
  unfold tryToAscii
  rw [if_pos hall]
  rfl

/-- Round trip for a raw byte-list option kind with minimum length 1. -/
theorem roundtrip_vecu8 (t : Nat) (C : List Nat → DhcpOption)
    (hdis : ∀ l data, DhcpOption.from_bytes t l data
      = (tryMinBytes tryToVecU8 data t 1).map C)
    (vs : List Nat) (h1 : 1 ≤ vs.length) (h255 : vs.length ≤ 255) :
    tlvDecode (u8VecToOptionBytes vs t) = .ok (C vs) := by
  simp only [u8VecToOptionBytes]
  rw [tlvDecode_lv _ _ h255, hdis]
  unfold tryMinBytes
  rw [if_neg (by omega)]
  rfl

/-- Round trip for a plain big-endian `u16` option kind. -/
theorem roundtrip_u16 (t : Nat) (C : Nat → DhcpOption)
    (hdis : ∀ l data, DhcpOption.from_bytes t l data = (tryToU16 data t).map C)
    (v : Nat) (h : v < 65536) :
    tlvDecode (u16ToOptionBytes v t) = .ok (C v) := by
  show DhcpOption.from_bytes t 2 ((u16ToBe v).take 2) = .ok (C v)
  rw [show (u16ToBe v).take 2 = u16ToBe v from rfl, hdis]
  show RResult.map C (.ok (u16FromBe (v / 256 % 256) (v % 256))) = .ok (C v)
  rw [u16_be_roundtrip v h]
  rfl

/-- Round trip for the two `u16` option kinds with the ≥ 576 constraint. -/
theorem roundtrip_u16_min576 (t : Nat) (C : Nat → DhcpOption)
    (hdis : ∀ l data, DhcpOption.from_bytes t l data
      = (tryToU16 data t).bind fun x =>
          if x < 576 then .err (.OptionInvalidValueError t) else .ok (C x))
    (v : Nat) (h1 : 576 ≤ v) (h2 : v < 65536) :
    tlvDecode (u16ToOptionBytes v t) = .ok (C v) := by
  show DhcpOption.from_bytes t 2 ((u16ToBe v).take 2) = .ok (C v)
  rw [show (u16ToBe v).take 2 = u16ToBe v from rfl, hdis]
  show (if u16FromBe (v / 256 % 256) (v % 256) < 576
      then RResult.err (.OptionInvalidValueError t)
      else .ok (C (u16FromBe (v / 256 % 256) (v % 256)))) = .ok (C v)
  rw [u16_be_roundtrip v h2, if_neg (by omega)]

/-- Round trip for a plain big-endian `u32` option kind. -/
theorem roundtrip_u32 (t : Nat) (C : Nat → DhcpOption)
    (hdis : ∀ l data, DhcpOption.from_bytes t l data = (tryToU32 data t).map C)
    (v : Nat) (h : v < 4294967296) :
    tlvDecode (u32ToOptionBytes v t) = .ok (C v) := by
  show DhcpOption.from_bytes t 4 ((u32ToBe v).take 4) = .ok (C v)
  rw [show (u32ToBe v).take 4 = u32ToBe v from rfl, hdis]
  show RResult.map C (.ok (u32FromBe (v / 16777216 % 256) (v / 65536 % 256)
    (v / 256 % 256) (v % 256))) = .ok (C v)
  rw [u32_be_roundtrip v h]
  rfl

/-- Round trip for the lease-time option (`u32` with minimum length 4). -/
theorem roundtrip_u32_min4 (t : Nat) (C : Nat → DhcpOption)
    (hdis : ∀ l data, DhcpOption.from_bytes t l data
      = (tryMinBytes tryToU32 data t 4).map C)
    (v : Nat) (h : v < 4294967296) :
    tlvDecode (u32ToOptionBytes v t) = .ok (C v) := by
  show DhcpOption.from_bytes t 4 ((u32ToBe v).take 4) = .ok (C v)
  rw [show (u32ToBe v).take 4 = u32ToBe v from rfl, hdis]
  unfold tryMinBytes
  rw [if_neg (by simp [u32ToBe])]
  show RResult.map C (.ok (u32FromBe (v / 16777216 % 256) (v / 65536 % 256)
    (v / 256 % 256) (v % 256))) = .ok (C v)
  rw [u32_be_roundtrip v h]
  rfl

/-- Round trip for the signed 32-bit time-offset option. -/
theorem roundtrip_i32 (t : Nat) (C : Int → DhcpOption)
    (hdis : ∀ l data, DhcpOption.from_bytes t l data = (tryToI32 data t).map C)
    (v : Int) (h1 : -2147483648 ≤ v) (h2 : v < 2147483648) :
    tlvDecode (i32ToOptionBytes v t) = .ok (C v) := by
  show DhcpOption.from_bytes t 4 ((i32ToBe v).take 4) = .ok (C v)
  rw [show (i32ToBe v).take 4 = i32ToBe v from rfl, hdis]
  show RResult.map C (.ok (i32FromBe ((v % 4294967296).toNat / 16777216 % 256)
    ((v % 4294967296).toNat / 65536 % 256) ((v % 4294967296).toNat / 256 % 256)
    ((v % 4294967296).toNat % 256))) = .ok (C v)
  rw [i32_be_roundtrip v h1 h2]
  rfl

/-- Round trip for the MTU plateau table (`u16` list, minimum length 2). -/
theorem roundtrip_u16vec (t : Nat) (C : List Nat → DhcpOption)
    (hdis : ∀ l data, DhcpOption.from_bytes t l data
      = (tryMinBytes tryToVecU16 data t 2).map C)
    (vs : List Nat) (h1 : 1 ≤ vs.length) (h2 : vs.length ≤ 127)
    (hall : ∀ x ∈ vs, x < 65536) :
    tlvDecode (u16VecToOptionBytes vs t) = .ok (C vs) := by
  have hlen := flatten_u16_length vs
  simp only [u16VecToOptionBytes]
  rw [tlvDecode_lv _ _ (by omega), hdis]
  unfold tryMinBytes
  rw [if_neg (by omega)]
  unfold tryToVecU16
  rw [if_pos (by omega), u16Chunks_encode vs hall]
  rfl

/-- Round trip for the policy-filter option (spec-modelled decoder). -/
theorem roundtrip_policy (v : List Ipv4WithMask) (h1 : 1 ≤ v.length)
    (h2 : v.length ≤ 31) :
    tlvDecode (ipv4PairVecToOptionBytes (v.map fun m => (m.ipv4addr, m.mask))
      POLICY_FILTER) = .ok (.PolicyFilter v) := by
  have hdis : ∀ l data, DhcpOption.from_bytes POLICY_FILTER l data
      = (tryMinBytes tryToIpv4MaskVec data POLICY_FILTER 8).map .PolicyFilter :=
    fun l data => rfl
  have hlen : (((v.map fun m => ((m.ipv4addr, m.mask) : Ipv4 × Ipv4)).map
      fun p => p.1.octets ++ p.2.octets).flatten).length = 8 * v.length := by
    rw [flatten_pair_octets_length]
    simp
  simp only [ipv4PairVecToOptionBytes]
  rw [tlvDecode_lv _ _ (by omega), hdis]
  unfold tryMinBytes
  rw [if_neg (by omega)]
  unfold tryToIpv4MaskVec
  rw [if_pos (by omega), ipv4PairChunks_encode, map_pair_mask]
  rfl

/-- Round trip for the static-route option (spec-modelled decoder). -/
theorem roundtrip_static (v : List StaticRoute) (h1 : 1 ≤ v.length)
    (h2 : v.length ≤ 31) :
    tlvDecode (ipv4PairVecToOptionBytes (v.map fun r => (r.destination, r.router))
      STATIC_ROUTE) = .ok (.StaticRoute v) := by
  have hdis : ∀ l data, DhcpOption.from_bytes STATIC_ROUTE l data
      = (tryMinBytes tryToStaticRouteVec data STATIC_ROUTE 8).map .StaticRoute :=
    fun l data => rfl
  have hlen : (((v.map fun r => ((r.destination, r.router) : Ipv4 × Ipv4)).map
      fun p => p.1.octets ++ p.2.octets).flatten).length = 8 * v.length := by
    rw [flatten_pair_octets_length]
    simp
  simp only [ipv4PairVecToOptionBytes]
  rw [tlvDecode_lv _ _ (by omega), hdis]
  unfold tryMinBytes
  rw [if_neg (by omega)]
  unfold tryToStaticRouteVec
  rw [if_pos (by omega), ipv4PairChunks_encode, map_pair_route]
  rfl

/-- Round trip for the relay-agent option on well-formed sub-options. -/
theorem roundtrip_relay (subs : List RelayAgentInformationSubOption)
    (h1 : subs ≠ []) (hdata : ∀ r ∈ subs, (relaySubData r).length ≤ 255)
    (htot : ((subs.map relaySubBytes).flatten).length ≤ 255) :
    tlvDecode (relayVecToOptionBytes subs RELAY_AGENT_INFORMATION)
      = .ok (.RelayAgentInformation subs) := by
  simp only [relayVecToOptionBytes]
  rw [tlvDecode_lv _ _ htot]
  show (tryToRelaySubs RELAY_AGENT_INFORMATION
      ((subs.map relaySubBytes).flatten)).map DhcpOption.RelayAgentInformation
    = .ok (.RelayAgentInformation subs)
  rw [relay_roundtrip _ subs h1 hdata]
  rfl

end Dhcplib

namespace Dhcplib

/-- Claim C1, amended: for every well-formed option value other than
`ClientIdentifier` (and the frameless `Pad`/`End`), parsing the TLV bytes
emitted by `DhcpOption::to_bytes` — tag byte, length byte, then the declared
number of payload bytes — through the tag-dispatched decoder
`DhcpOption::from_bytes` returns exactly the original value.  `wellFormed`
spells out what "valid" means: the decoder-enforced minimum lengths and
value bounds, machine-integer ranges, payloads that fit the length byte, and
a genuinely unknown tag for the `Unknown` fallback. -/
theorem c1_tlv_roundtrip_except_client_identifier :
    ∀ o : DhcpOption, wellFormed o = true →
      tlvDecode (DhcpOption.to_bytes o) = .ok o := by
  intro o h
  cases o with
  | Pad => exact Bool.noConfusion h
  | SubnetMask v => rfl
  | TimeOffset v =>
    simp only [wellFormed, Bool.and_eq_true, decide_eq_true_eq] at h
    exact roundtrip_i32 TIME_OFFSET .TimeOffset (fun l data => rfl) v h.1 h.2
  | Router v =>
    simp only [wellFormed, Bool.and_eq_true, decide_eq_true_eq] at h
    exact roundtrip_ipv4vec ROUTER .Router (fun l data => rfl) v h.1 h.2
  | TimeServer v =>
    simp only [wellFormed, Bool.and_eq_true, decide_eq_true_eq] at h
    exact roundtrip_ipv4vec TIME_SERVER .TimeServer (fun l data => rfl) v h.1 h.2
  | NameServer v =>
    simp only [wellFormed, Bool.and_eq_true, decide_eq_true_eq] at h
    exact roundtrip_ipv4vec NAME_SERVER .NameServer (fun l data => rfl) v h.1 h.2
  | DomainNameServer v =>
    simp only [wellFormed, Bool.and_eq_true, decide_eq_true_eq] at h
    exact roundtrip_ipv4vec DOMAIN_NAME_SERVER .DomainNameServer (fun l data => rfl) v h.1 h.2
  | LogServer v =>
    simp only [wellFormed, Bool.and_eq_true, decide_eq_true_eq] at h
    exact roundtrip_ipv4vec LOG_SERVER .LogServer (fun l data => rfl) v h.1 h.2
  | CookieServer v =>
    simp only [wellFormed, Bool.and_eq_true, decide_eq_true_eq] at h
    exact roundtrip_ipv4vec COOKIE_SERVER .CookieServer (fun l data => rfl) v h.1 h.2
  | LPRServer v =>
    simp only [wellFormed, Bool.and_eq_true, decide_eq_true_eq] at h
    exact roundtrip_ipv4vec LPR_SERVER .LPRServer (fun l data => rfl) v h.1 h.2
  | ImpressServer v =>
    simp only [wellFormed, Bool.and_eq_true, decide_eq_true_eq] at h
    exact roundtrip_ipv4vec IMPRESS_SERVER .ImpressServer (fun l data => rfl) v h.1 h.2
  | ResourceLocationServer v =>
    simp only [wellFormed, Bool.and_eq_true, decide_eq_true_eq] at h
    exact roundtrip_ipv4vec RESOURCE_LOCATION_SERVER .ResourceLocationServer (fun l data => rfl) v h.1 h.2
  | HostName v =>
    simp only [wellFormed, Bool.and_eq_true, decide_eq_true_eq] at h
    exact roundtrip_ascii_min HOST_NAME 1 .HostName (fun l data => rfl) v h.1.1 h.1.2 h.2
  | BootFileSize v =>
    simp only [wellFormed, decide_eq_true_eq] at h
    exact roundtrip_u16 BOOT_FILE_SIZE .BootFileSize (fun l data => rfl) v h
  | MeritDumpFile v =>
    simp only [wellFormed, Bool.and_eq_true, decide_eq_true_eq] at h
    exact roundtrip_ascii_min MERIT_DUMP_FILE 1 .MeritDumpFile (fun l data => rfl) v h.1.1 h.1.2 h.2
  | DomainName v =>
    simp only [wellFormed, Bool.and_eq_true, decide_eq_true_eq] at h
    exact roundtrip_ascii_min DOMAIN_NAME 1 .DomainName (fun l data => rfl) v h.1.1 h.1.2 h.2
  | SwapServer v => rfl
  | RootPath v =>
    simp only [wellFormed, Bool.and_eq_true, decide_eq_true_eq] at h
    exact roundtrip_ascii_min ROOT_PATH 1 .RootPath (fun l data => rfl) v h.1.1 h.1.2 h.2
  | ExtensionPath v =>
    simp only [wellFormed, Bool.and_eq_true, decide_eq_true_eq] at h
    exact roundtrip_ascii_min EXTENSION_PATH 1 .ExtensionPath (fun l data => rfl) v h.1.1 h.1.2 h.2
  | IpForwarding v => cases v <;> rfl
  | NonLocalSourceRouting v => cases v <;> rfl
  | PolicyFilter v =>
    simp only [wellFormed, Bool.and_eq_true, decide_eq_true_eq] at h
    exact roundtrip_policy v h.1 h.2
  | MaximumDatagramReassemblySize v =>
    simp only [wellFormed, Bool.and_eq_true, decide_eq_true_eq] at h
    exact roundtrip_u16_min576 MAXIMUM_DATAGRAM_REASSEMBLY_SIZE .MaximumDatagramReassemblySize (fun l data => rfl) v h.1 h.2
  | DefaultIpTTL v => rfl
  | PathMtuAgingTimeout v =>
    simp only [wellFormed, decide_eq_true_eq] at h
    exact roundtrip_u32 PATH_MTU_AGING_TIMEOUT .PathMtuAgingTimeout (fun l data => rfl) v h
  | PathMtuPlateauTable v =>
    simp only [wellFormed, Bool.and_eq_true, decide_eq_true_eq, List.all_eq_true] at h
    exact roundtrip_u16vec PATH_MTU_PLATEAU_TABLE .PathMtuPlateauTable
      (fun l data => rfl) v h.1.1 h.1.2 h.2
  | InterfaceMtu v =>
    simp only [wellFormed, decide_eq_true_eq] at h
    exact roundtrip_u16 INTERFACE_MTU .InterfaceMtu (fun l data => rfl) v h
  | AllSubnetsLocal v => cases v <;> rfl
  | BroadcastAddress v => rfl
  | MaskSupplier v => cases v <;> rfl
  | PerformRouterDiscovery v => cases v <;> rfl
  | RouterSolicitationAddress v => rfl
  | StaticRoute v =>
    simp only [wellFormed, Bool.and_eq_true, decide_eq_true_eq] at h
    exact roundtrip_static v h.1 h.2
  | TrailerEncapsulation v => cases v <;> rfl
  | ArpCacheTimeout v =>
    simp only [wellFormed, decide_eq_true_eq] at h
    exact roundtrip_u32 ARP_CACHE_TIMEOUT .ArpCacheTimeout (fun l data => rfl) v h
  | EthernetEncapsulation v => cases v <;> rfl
  | TcpDefaultTTL v =>
    simp only [wellFormed, Bool.and_eq_true, decide_eq_true_eq] at h
    show (if v < 1 then RResult.err (DhcpError.OptionInvalidValueError TCP_DEFAULT_TTL)
        else RResult.ok (DhcpOption.TcpDefaultTTL v))
      = RResult.ok (DhcpOption.TcpDefaultTTL v)
    rw [if_neg (by omega)]
  | TcpKeepAliveInterval v =>
    simp only [wellFormed, decide_eq_true_eq] at h
    exact roundtrip_u32 TCP_KEEPALIVE_INTERVAL .TcpKeepAliveInterval (fun l data => rfl) v h
  | TcpKeepAliveGarbage v => cases v <;> rfl
  | NetworkInformationServiceDomain v =>
    simp only [wellFormed, Bool.and_eq_true, decide_eq_true_eq] at h
    exact roundtrip_ascii_min NETWORK_INFORMATION_SERVICE_DOMAIN 1 .NetworkInformationServiceDomain (fun l data => rfl) v h.1.1 h.1.2 h.2
  | NetworkInformationServers v =>
    simp only [wellFormed, Bool.and_eq_true, decide_eq_true_eq] at h
    exact roundtrip_ipv4vec NETWORK_INFORMATION_SERVERS .NetworkInformationServers (fun l data => rfl) v h.1 h.2
  | NetworkTimeProtocolServers v =>
    simp only [wellFormed, Bool.and_eq_true, decide_eq_true_eq] at h
    exact roundtrip_ipv4vec NETWORK_TIME_PROTOCOL_SERVERS .NetworkTimeProtocolServers (fun l data => rfl) v h.1 h.2
  | VendorSpecific v =>
    simp only [wellFormed, Bool.and_eq_true, decide_eq_true_eq] at h
    exact roundtrip_vecu8 VENDOR_SPECIFIC .VendorSpecific (fun l data => rfl) v h.1 h.2
  | NetBiosOverTcpIpNameServer v =>
    simp only [wellFormed, Bool.and_eq_true, decide_eq_true_eq] at h
    exact roundtrip_ipv4vec NETBIOS_OVER_TCP_IP_NAME_SERVER .NetBiosOverTcpIpNameServer (fun l data => rfl) v h.1 h.2
  | NetBiosOverTcpIpDatagramDistributionServer v =>
    simp only [wellFormed, Bool.and_eq_true, decide_eq_true_eq] at h
    exact roundtrip_ipv4vec NETBIOS_OVER_TCP_IP_DATAGRAM_DISTRIBUTION_SERVER .NetBiosOverTcpIpDatagramDistributionServer (fun l data => rfl) v h.1 h.2
  | NetBiosOverTcpIpNodeType v => cases v <;> rfl
  | NetBiosOverTcpIpScope v =>
    simp only [wellFormed, Bool.and_eq_true, decide_eq_true_eq] at h
    exact roundtrip_ascii_min NETBIOS_OVER_TCP_IP_SCOPE 1 .NetBiosOverTcpIpScope (fun l data => rfl) v h.1.1 h.1.2 h.2
  | XWindowSystemFontServer v =>
    simp only [wellFormed, Bool.and_eq_true, decide_eq_true_eq] at h
    exact roundtrip_ipv4vec X_WINDOW_SYSTEM_FONT_SERVER .XWindowSystemFontServer (fun l data => rfl) v h.1 h.2
  | XWindowSystemDisplayManager v =>
    simp only [wellFormed, Bool.and_eq_true, decide_eq_true_eq] at h
    exact roundtrip_ipv4vec X_WINDOW_SYSTEM_DISPLAY_MANAGER .XWindowSystemDisplayManager (fun l data => rfl) v h.1 h.2
  | RequestedIpAddress v => rfl
  | IpAddressLeaseTime v =>
    simp only [wellFormed, decide_eq_true_eq] at h
    exact roundtrip_u32_min4 IP_ADDRESS_LEASE_TIME .IpAddressLeaseTime (fun l data => rfl) v h
  | OptionOverload v => cases v <;> rfl
  | MessageType v => cases v <;> rfl
  | ServerIdentifier v => rfl
  | ParameterRequestList v =>
    simp only [wellFormed, Bool.and_eq_true, decide_eq_true_eq] at h
    exact roundtrip_vecu8 PARAMETER_REQUEST_LIST .ParameterRequestList (fun l data => rfl) v h.1 h.2
  | Message v =>
    simp only [wellFormed, Bool.and_eq_true, decide_eq_true_eq] at h
    exact roundtrip_ascii_min MESSAGE 1 .Message (fun l data => rfl) v h.1.1 h.1.2 h.2
  | MaximumDhcpMessageSize v =>
    simp only [wellFormed, Bool.and_eq_true, decide_eq_true_eq] at h
    exact roundtrip_u16_min576 MAXIMUM_DHCP_MESSAGE_SIZE .MaximumDhcpMessageSize (fun l data => rfl) v h.1 h.2
  | RenewalTimeValue v =>
    simp only [wellFormed, decide_eq_true_eq] at h
    exact roundtrip_u32 RENEWAL_TIME_VALUE .RenewalTimeValue (fun l data => rfl) v h
  | RebindingTimeValue v =>
    simp only [wellFormed, decide_eq_true_eq] at h
    exact roundtrip_u32 REBINDING_TIME_VALUE .RebindingTimeValue (fun l data => rfl) v h
  | VendorClassIdentifier v =>
    simp only [wellFormed, Bool.and_eq_true, decide_eq_true_eq] at h
    exact roundtrip_vecu8 VENDOR_CLASS_IDENTIFIER .VendorClassIdentifier (fun l data => rfl) v h.1 h.2
  | ClientIdentifier typ data => exact Bool.noConfusion h
  | NetworkInformationServicePlusDomain v =>
    simp only [wellFormed, Bool.and_eq_true, decide_eq_true_eq] at h
    exact roundtrip_ascii_min NETWORK_INFORMATION_SERVICE_PLUS_DOMAIN 4
      .NetworkInformationServicePlusDomain (fun l data => rfl) v h.1.1 h.1.2 h.2
  | NetworkInformationServicePlusServer v =>
    simp only [wellFormed, Bool.and_eq_true, decide_eq_true_eq] at h
    exact roundtrip_ipv4vec NETWORK_INFORMATION_SERVICE_PLUS_SERVERS .NetworkInformationServicePlusServer (fun l data => rfl) v h.1 h.2
  | TftpServer v =>
    simp only [wellFormed, Bool.and_eq_true, decide_eq_true_eq] at h
    exact roundtrip_ascii_nomin TFTP_SERVER_NAME .TftpServer (fun l data => rfl) v h.1 h.2
  | BootFileName v =>
    simp only [wellFormed, Bool.and_eq_true, decide_eq_true_eq] at h
    exact roundtrip_ascii_min BOOT_FILE_NAME 1 .BootFileName (fun l data => rfl) v h.1.1 h.1.2 h.2
  | MobileIpHomeAgent v =>
    simp only [wellFormed, decide_eq_true_eq] at h
    exact roundtrip_ipv4vec_nomin MOBILE_IP_HOME_AGENT .MobileIpHomeAgent (fun l data => rfl) v h
  | SmtpServer v =>
    simp only [wellFormed, Bool.and_eq_true, decide_eq_true_eq] at h
    exact roundtrip_ipv4vec SMTP_SERVER .SmtpServer (fun l data => rfl) v h.1 h.2
  | Pop3Server v =>
    simp only [wellFormed, Bool.and_eq_true, decide_eq_true_eq] at h
    exact roundtrip_ipv4vec POP3_SERVER .Pop3Server (fun l data => rfl) v h.1 h.2
  | NntpServer v =>
    simp only [wellFormed, Bool.and_eq_true, decide_eq_true_eq] at h
    exact roundtrip_ipv4vec NNTP_SERVER .NntpServer (fun l data => rfl) v h.1 h.2
  | WwwServer v =>
    simp only [wellFormed, Bool.and_eq_true, decide_eq_true_eq] at h
    exact roundtrip_ipv4vec WWW_SERVER .WwwServer (fun l data => rfl) v h.1 h.2
  | FingerServer v =>
    simp only [wellFormed, Bool.and_eq_true, decide_eq_true_eq] at h
    exact roundtrip_ipv4vec FINGER_SERVER .FingerServer (fun l data => rfl) v h.1 h.2
  | IrcServer v =>
    simp only [wellFormed, Bool.and_eq_true, decide_eq_true_eq] at h
    exact roundtrip_ipv4vec IRC_SERVER .IrcServer (fun l data => rfl) v h.1 h.2
  | StreetTalkServer v =>
    simp only [wellFormed, Bool.and_eq_true, decide_eq_true_eq] at h
    exact roundtrip_ipv4vec STREET_TALK_SERVER .StreetTalkServer (fun l data => rfl) v h.1 h.2
  | StreetTalkDirectoryAssistanceServer v =>
    simp only [wellFormed, Bool.and_eq_true, decide_eq_true_eq] at h
    exact roundtrip_ipv4vec STREET_TALK_DIRECTORY_ASSISTANCE .StreetTalkDirectoryAssistanceServer (fun l data => rfl) v h.1 h.2
  | End => exact Bool.noConfusion h
  | RelayAgentInformation v =>
    simp only [wellFormed, Bool.and_eq_true, decide_eq_true_eq, List.all_eq_true] at h
    exact roundtrip_relay v (List.length_pos.mp h.1.1) h.1.2 h.2
  | Unknown t data =>
    simp only [wellFormed, Bool.and_eq_true, Bool.or_eq_true, decide_eq_true_eq] at h
    show tlvDecode (t :: data.length % 256 :: data) = .ok (.Unknown t data)
    rw [tlvDecode_lv _ _ h.2]
    simp only [DhcpOption.from_bytes, PAD, SUBNET_MASK, TIME_OFFSET, ROUTER, TIME_SERVER,
      NAME_SERVER, DOMAIN_NAME_SERVER, LOG_SERVER, COOKIE_SERVER, LPR_SERVER,
      IMPRESS_SERVER, RESOURCE_LOCATION_SERVER, HOST_NAME, BOOT_FILE_SIZE,
      MERIT_DUMP_FILE, DOMAIN_NAME, SWAP_SERVER, ROOT_PATH, EXTENSION_PATH,
      IP_FORWARDING, NON_LOCAL_SOURCE_ROUTING, POLICY_FILTER,
      MAXIMUM_DATAGRAM_REASSEMBLY_SIZE, DEFAULT_IP_TTL, PATH_MTU_AGING_TIMEOUT,
      PATH_MTU_PLATEAU_TABLE, INTERFACE_MTU, ALL_SUBNETS_LOCAL, BROADCAST_ADDRESS,
      PERFORM_MASK_DISCOVERY, MASK_SUPPLIER, PERFORM_ROUTER_DISCOVERY,
      ROUTER_SOLICITATION_ADDRESS, STATIC_ROUTE, TRAILER_ENCAPSULATION,
      ARP_CACHE_TIMEOUT, ETHERNET_ENCAPSULATION, TCP_DEFAULT_TTL,
      TCP_KEEPALIVE_INTERVAL, TCP_KEEPALIVE_GARGABE,
      NETWORK_INFORMATION_SERVICE_DOMAIN, NETWORK_INFORMATION_SERVERS,
      NETWORK_TIME_PROTOCOL_SERVERS, VENDOR_SPECIFIC,
      NETBIOS_OVER_TCP_IP_NAME_SERVER,
      NETBIOS_OVER_TCP_IP_DATAGRAM_DISTRIBUTION_SERVER,
      NETBIOS_OVER_TCP_IP_NODE_TYPE, NETBIOS_OVER_TCP_IP_SCOPE,
      X_WINDOW_SYSTEM_FONT_SERVER, X_WINDOW_SYSTEM_DISPLAY_MANAGER,
      REQUESTED_IP_ADDRESS, IP_ADDRESS_LEASE_TIME, OPTION_OVERLOAD, MESSAGE_TYPE,
      SERVER_IDENTIFIER, PARAMETER_REQUEST_LIST, MESSAGE, MAXIMUM_DHCP_MESSAGE_SIZE,
      RENEWAL_TIME_VALUE, REBINDING_TIME_VALUE, VENDOR_CLASS_IDENTIFIER,
      CLIENT_IDENTIFIER, NETWORK_INFORMATION_SERVICE_PLUS_DOMAIN,
      NETWORK_INFORMATION_SERVICE_PLUS_SERVERS, TFTP_SERVER_NAME, BOOT_FILE_NAME,
      MOBILE_IP_HOME_AGENT, SMTP_SERVER, POP3_SERVER, NNTP_SERVER, WWW_SERVER,
      FINGER_SERVER, IRC_SERVER, STREET_TALK_SERVER,
      STREET_TALK_DIRECTORY_ASSISTANCE, END, RELAY_AGENT_INFORMATION]
    repeat rw [if_neg (by omega)]

end Dhcplib

namespace Dhcplib

/-- Claim C1, counterexample: `ClientIdentifier` does not round-trip.  The
value with type 1 and data `[2]` encodes to `[61, 1, 1, 2]`; parsing that
TLV frame (tag 61, declared length 1, payload `[1]`) returns the client
identifier with type 1 and empty data — the data byte is lost, because the
encoder wrote the type byte where the length belongs. -/
theorem c1_counterexample_client_identifier :
    tlvDecode (DhcpOption.to_bytes (.ClientIdentifier 1 [2]))
      = .ok (.ClientIdentifier 1 [])
    ∧ DhcpOption.ClientIdentifier 1 [] ≠ DhcpOption.ClientIdentifier 1 [2] :=
  ⟨rfl, fun hcontra => by
    injection hcontra with h1 h2
    exact List.noConfusion h2⟩

/-- Witness for C1's amended theorem: the one-character host name "h" is
well-formed and round-trips through its own TLV frame. -/
theorem c1_witness :
    wellFormed (.HostName [104]) = true
    ∧ tlvDecode (DhcpOption.to_bytes (.HostName [104])) = .ok (.HostName [104]) :=
  ⟨by decide, c1_tlv_roundtrip_except_client_identifier (.HostName [104]) (by decide)⟩

end Dhcplib

namespace Dhcplib

/-- Inverting `RResult.map` on an `ok` outcome. -/
theorem RResult.map_ok_inv {α β : Type} {f : α → β} {r : RResult α} {b : β}
    (h : r.map f = .ok b) : ∃ a, r = .ok a ∧ b = f a := by
  cases r with
  | ok a =>
    injection h with h2
    exact ⟨a, rfl, h2.symm⟩
  | err e => exact RResult.noConfusion h
  | panic => exact RResult.noConfusion h

/-- Inverting `RResult.bind` on an `ok` outcome. -/
theorem RResult.bind_ok_inv {α β : Type} {f : α → RResult β} {r : RResult α}
    {b : β} (h : r.bind f = .ok b) : ∃ a, r = .ok a ∧ f a = .ok b := by
  cases r with
  | ok a => exact ⟨a, rfl, h⟩
  | err e => exact RResult.noConfusion h
  | panic => exact RResult.noConfusion h

/-- For every wire tag other than 29 (`PERFORM_MASK_DISCOVERY`, decoded as
`PerformRouterDiscovery`, tag 31) and 41 (`NETWORK_INFORMATION_SERVERS`,
decoded as `NetworkInformationServers`, whose `tag()` is 44), a successful
`DhcpOption::from_bytes` returns an option whose own `tag()` equals the wire
tag it was dispatched on. -/
theorem from_bytes_tag (t l : Nat) (data : List Nat) (o : DhcpOption)
    (hne29 : t ≠ PERFORM_MASK_DISCOVERY) (hne41 : t ≠ NETWORK_INFORMATION_SERVERS)
    (h : DhcpOption.from_bytes t l data = .ok o) : o.tag = t := by
  unfold DhcpOption.from_bytes at h
  by_cases h0 : t = PAD
  · rw [if_pos h0] at h
    injection h with he
    subst he
    exact h0.symm
  rw [if_neg h0] at h
  by_cases h1 : t = SUBNET_MASK
  · rw [if_pos h1] at h
    obtain ⟨x, -, rfl⟩ := RResult.map_ok_inv h
    exact h1.symm
  rw [if_neg h1] at h
  by_cases h2 : t = TIME_OFFSET
  · rw [if_pos h2] at h
    obtain ⟨x, -, rfl⟩ := RResult.map_ok_inv h
    exact h2.symm
  rw [if_neg h2] at h
  by_cases h3 : t = ROUTER
  · rw [if_pos h3] at h
    obtain ⟨x, -, rfl⟩ := RResult.map_ok_inv h
    exact h3.symm
  rw [if_neg h3] at h
  by_cases h4 : t = TIME_SERVER
  · rw [if_pos h4] at h
    obtain ⟨x, -, rfl⟩ := RResult.map_ok_inv h
    exact h4.symm
  rw [if_neg h4] at h
  by_cases h5 : t = NAME_SERVER
  · rw [if_pos h5] at h
    obtain ⟨x, -, rfl⟩ := RResult.map_ok_inv h
    exact h5.symm
  rw [if_neg h5] at h
  by_cases h6 : t = DOMAIN_NAME_SERVER
  · rw [if_pos h6] at h
    obtain ⟨x, -, rfl⟩ := RResult.map_ok_inv h
    exact h6.symm
  rw [if_neg h6] at h
  by_cases h7 : t = LOG_SERVER
  · rw [if_pos h7] at h
    obtain ⟨x, -, rfl⟩ := RResult.map_ok_inv h
    exact h7.symm
  rw [if_neg h7] at h
  by_cases h8 : t = COOKIE_SERVER
  · rw [if_pos h8] at h
    obtain ⟨x, -, rfl⟩ := RResult.map_ok_inv h
    exact h8.symm
  rw [if_neg h8] at h
  by_cases h9 : t = LPR_SERVER
  · rw [if_pos h9] at h
    obtain ⟨x, -, rfl⟩ := RResult.map_ok_inv h
    exact h9.symm
  rw [if_neg h9] at h
  by_cases h10 : t = IMPRESS_SERVER
  · rw [if_pos h10] at h
    obtain ⟨x, -, rfl⟩ := RResult.map_ok_inv h
    exact h10.symm
  rw [if_neg h10] at h
  by_cases h11 : t = RESOURCE_LOCATION_SERVER
  · rw [if_pos h11] at h
    obtain ⟨x, -, rfl⟩ := RResult.map_ok_inv h
    exact h11.symm
  rw [if_neg h11] at h
  by_cases h12 : t = HOST_NAME
  · rw [if_pos h12] at h
    obtain ⟨x, -, rfl⟩ := RResult.map_ok_inv h
    exact h12.symm
  rw [if_neg h12] at h
  by_cases h13 : t = BOOT_FILE_SIZE
  · rw [if_pos h13] at h
    obtain ⟨x, -, rfl⟩ := RResult.map_ok_inv h
    exact h13.symm
  rw [if_neg h13] at h
  by_cases h14 : t = MERIT_DUMP_FILE
  · rw [if_pos h14] at h
    obtain ⟨x, -, rfl⟩ := RResult.map_ok_inv h
    exact h14.symm
  rw [if_neg h14] at h
  by_cases h15 : t = DOMAIN_NAME
  · rw [if_pos h15] at h
    obtain ⟨x, -, rfl⟩ := RResult.map_ok_inv h
    exact h15.symm
  rw [if_neg h15] at h
  by_cases h16 : t = SWAP_SERVER
  · rw [if_pos h16] at h
    obtain ⟨x, -, rfl⟩ := RResult.map_ok_inv h
    exact h16.symm
  rw [if_neg h16] at h
  by_cases h17 : t = ROOT_PATH
  · rw [if_pos h17] at h
    obtain ⟨x, -, rfl⟩ := RResult.map_ok_inv h
    exact h17.symm
  rw [if_neg h17] at h
  by_cases h18 : t = EXTENSION_PATH
  · rw [if_pos h18] at h
    obtain ⟨x, -, rfl⟩ := RResult.map_ok_inv h
    exact h18.symm
  rw [if_neg h18] at h
  by_cases h19 : t = IP_FORWARDING
  · rw [if_pos h19] at h
    obtain ⟨x, -, rfl⟩ := RResult.map_ok_inv h
    exact h19.symm
  rw [if_neg h19] at h
  by_cases h20 : t = NON_LOCAL_SOURCE_ROUTING
  · rw [if_pos h20] at h
    obtain ⟨x, -, rfl⟩ := RResult.map_ok_inv h
    exact h20.symm
  rw [if_neg h20] at h
  by_cases h21 : t = POLICY_FILTER
  · rw [if_pos h21] at h
    obtain ⟨x, -, rfl⟩ := RResult.map_ok_inv h
    exact h21.symm
  rw [if_neg h21] at h
  by_cases h22 : t = MAXIMUM_DATAGRAM_REASSEMBLY_SIZE
  · rw [if_pos h22] at h
    obtain ⟨v, -, h2⟩ := RResult.bind_ok_inv h
    by_cases hv22 : v < 576
    · rw [if_pos hv22] at h2
      exact RResult.noConfusion h2
    · rw [if_neg hv22] at h2
      injection h2 with he
      subst he
      exact h22.symm
  rw [if_neg h22] at h
  by_cases h23 : t = DEFAULT_IP_TTL
  · rw [if_pos h23] at h
    obtain ⟨x, -, rfl⟩ := RResult.map_ok_inv h
    exact h23.symm
  rw [if_neg h23] at h
  by_cases h24 : t = PATH_MTU_AGING_TIMEOUT
  · rw [if_pos h24] at h
    obtain ⟨x, -, rfl⟩ := RResult.map_ok_inv h
    exact h24.symm
  rw [if_neg h24] at h
  by_cases h25 : t = PATH_MTU_PLATEAU_TABLE
  · rw [if_pos h25] at h
    obtain ⟨x, -, rfl⟩ := RResult.map_ok_inv h
    exact h25.symm
  rw [if_neg h25] at h
  by_cases h26 : t = INTERFACE_MTU
  · rw [if_pos h26] at h
    obtain ⟨x, -, rfl⟩ := RResult.map_ok_inv h
    exact h26.symm
  rw [if_neg h26] at h
  by_cases h27 : t = ALL_SUBNETS_LOCAL
  · rw [if_pos h27] at h
    obtain ⟨x, -, rfl⟩ := RResult.map_ok_inv h
    exact h27.symm
  rw [if_neg h27] at h
  by_cases h28 : t = BROADCAST_ADDRESS
  · rw [if_pos h28] at h
    obtain ⟨x, -, rfl⟩ := RResult.map_ok_inv h
    exact h28.symm
  rw [if_neg h28] at h
  by_cases h29 : t = PERFORM_MASK_DISCOVERY
  · exact absurd h29 hne29
  rw [if_neg h29] at h
  by_cases h30 : t = MASK_SUPPLIER
  · rw [if_pos h30] at h
    obtain ⟨x, -, rfl⟩ := RResult.map_ok_inv h
    exact h30.symm
  rw [if_neg h30] at h
  by_cases h31 : t = PERFORM_ROUTER_DISCOVERY
  · rw [if_pos h31] at h
    obtain ⟨x, -, rfl⟩ := RResult.map_ok_inv h
    exact h31.symm
  rw [if_neg h31] at h
  by_cases h32 : t = ROUTER_SOLICITATION_ADDRESS
  · rw [if_pos h32] at h
    obtain ⟨x, -, rfl⟩ := RResult.map_ok_inv h
    exact h32.symm
  rw [if_neg h32] at h
  by_cases h33 : t = STATIC_ROUTE
  · rw [if_pos h33] at h
    obtain ⟨x, -, rfl⟩ := RResult.map_ok_inv h
    exact h33.symm
  rw [if_neg h33] at h
  by_cases h34 : t = TRAILER_ENCAPSULATION
  · rw [if_pos h34] at h
    obtain ⟨x, -, rfl⟩ := RResult.map_ok_inv h
    exact h34.symm
  rw [if_neg h34] at h
  by_cases h35 : t = ARP_CACHE_TIMEOUT
  · rw [if_pos h35] at h
    obtain ⟨x, -, rfl⟩ := RResult.map_ok_inv h
    exact h35.symm
  rw [if_neg h35] at h
  by_cases h36 : t = ETHERNET_ENCAPSULATION
  · rw [if_pos h36] at h
    obtain ⟨x, -, rfl⟩ := RResult.map_ok_inv h
    exact h36.symm
  rw [if_neg h36] at h
  by_cases h37 : t = TCP_DEFAULT_TTL
  · rw [if_pos h37] at h
    obtain ⟨v, -, h2⟩ := RResult.bind_ok_inv h
    by_cases hv37 : v < 1
    · rw [if_pos hv37] at h2
      exact RResult.noConfusion h2
    · rw [if_neg hv37] at h2
      injection h2 with he
      subst he
      exact h37.symm
  rw [if_neg h37] at h
  by_cases h38 : t = TCP_KEEPALIVE_INTERVAL
  · rw [if_pos h38] at h
    obtain ⟨x, -, rfl⟩ := RResult.map_ok_inv h
    exact h38.symm
  rw [if_neg h38] at h
  by_cases h39 : t = TCP_KEEPALIVE_GARGABE
  · rw [if_pos h39] at h
    obtain ⟨x, -, rfl⟩ := RResult.map_ok_inv h
    exact h39.symm
  rw [if_neg h39] at h
  by_cases h40 : t = NETWORK_INFORMATION_SERVICE_DOMAIN
  · rw [if_pos h40] at h
    obtain ⟨x, -, rfl⟩ := RResult.map_ok_inv h
    exact h40.symm
  rw [if_neg h40] at h
  by_cases h41 : t = NETWORK_INFORMATION_SERVERS
  · exact absurd h41 hne41
  rw [if_neg h41] at h
  by_cases h42 : t = NETWORK_TIME_PROTOCOL_SERVERS
  · rw [if_pos h42] at h
    obtain ⟨x, -, rfl⟩ := RResult.map_ok_inv h
    exact h42.symm
  rw [if_neg h42] at h
  by_cases h43 : t = VENDOR_SPECIFIC
  · rw [if_pos h43] at h
    obtain ⟨x, -, rfl⟩ := RResult.map_ok_inv h
    exact h43.symm
  rw [if_neg h43] at h
  by_cases h44 : t = NETBIOS_OVER_TCP_IP_NAME_SERVER
  · rw [if_pos h44] at h
    obtain ⟨x, -, rfl⟩ := RResult.map_ok_inv h
    exact h44.symm
  rw [if_neg h44] at h
  by_cases h45 : t = NETBIOS_OVER_TCP_IP_DATAGRAM_DISTRIBUTION_SERVER
  · rw [if_pos h45] at h
    obtain ⟨x, -, rfl⟩ := RResult.map_ok_inv h
    exact h45.symm
  rw [if_neg h45] at h
  by_cases h46 : t = NETBIOS_OVER_TCP_IP_NODE_TYPE
  · rw [if_pos h46] at h
    obtain ⟨x, -, rfl⟩ := RResult.map_ok_inv h
    exact h46.symm
  rw [if_neg h46] at h
  by_cases h47 : t = NETBIOS_OVER_TCP_IP_SCOPE
  · rw [if_pos h47] at h
    obtain ⟨x, -, rfl⟩ := RResult.map_ok_inv h
    exact h47.symm
  rw [if_neg h47] at h
  by_cases h48 : t = X_WINDOW_SYSTEM_FONT_SERVER
  · rw [if_pos h48] at h
    obtain ⟨x, -, rfl⟩ := RResult.map_ok_inv h
    exact h48.symm
  rw [if_neg h48] at h
  by_cases h49 : t = X_WINDOW_SYSTEM_DISPLAY_MANAGER
  · rw [if_pos h49] at h
    obtain ⟨x, -, rfl⟩ := RResult.map_ok_inv h
    exact h49.symm
  rw [if_neg h49] at h
  by_cases h50 : t = REQUESTED_IP_ADDRESS
  · rw [if_pos h50] at h
    obtain ⟨x, -, rfl⟩ := RResult.map_ok_inv h
    exact h50.symm
  rw [if_neg h50] at h
  by_cases h51 : t = IP_ADDRESS_LEASE_TIME
  · rw [if_pos h51] at h
    obtain ⟨x, -, rfl⟩ := RResult.map_ok_inv h
    exact h51.symm
  rw [if_neg h51] at h
  by_cases h52 : t = OPTION_OVERLOAD
  · rw [if_pos h52] at h
    obtain ⟨x, -, rfl⟩ := RResult.map_ok_inv h
    exact h52.symm
  rw [if_neg h52] at h
  by_cases h53 : t = MESSAGE_TYPE
  · rw [if_pos h53] at h
    obtain ⟨x, -, rfl⟩ := RResult.map_ok_inv h
    exact h53.symm
  rw [if_neg h53] at h
  by_cases h54 : t = SERVER_IDENTIFIER
  · rw [if_pos h54] at h
    obtain ⟨x, -, rfl⟩ := RResult.map_ok_inv h
    exact h54.symm
  rw [if_neg h54] at h
  by_cases h55 : t = PARAMETER_REQUEST_LIST
  · rw [if_pos h55] at h
    obtain ⟨x, -, rfl⟩ := RResult.map_ok_inv h
    exact h55.symm
  rw [if_neg h55] at h
  by_cases h56 : t = MESSAGE
  · rw [if_pos h56] at h
    obtain ⟨x, -, rfl⟩ := RResult.map_ok_inv h
    exact h56.symm
  rw [if_neg h56] at h
  by_cases h57 : t = MAXIMUM_DHCP_MESSAGE_SIZE
  · rw [if_pos h57] at h
    obtain ⟨v, -, h2⟩ := RResult.bind_ok_inv h
    by_cases hv57 : v < 576
    · rw [if_pos hv57] at h2
      exact RResult.noConfusion h2
    · rw [if_neg hv57] at h2
      injection h2 with he
      subst he
      exact h57.symm
  rw [if_neg h57] at h
  by_cases h58 : t = RENEWAL_TIME_VALUE
  · rw [if_pos h58] at h
    obtain ⟨x, -, rfl⟩ := RResult.map_ok_inv h
    exact h58.symm
  rw [if_neg h58] at h
  by_cases h59 : t = REBINDING_TIME_VALUE
  · rw [if_pos h59] at h
    obtain ⟨x, -, rfl⟩ := RResult.map_ok_inv h
    exact h59.symm
  rw [if_neg h59] at h
  by_cases h60 : t = VENDOR_CLASS_IDENTIFIER
  · rw [if_pos h60] at h
    obtain ⟨x, -, rfl⟩ := RResult.map_ok_inv h
    exact h60.symm
  rw [if_neg h60] at h
  by_cases h61 : t = CLIENT_IDENTIFIER
  · rw [if_pos h61] at h
    obtain ⟨x, -, rfl⟩ := RResult.map_ok_inv h
    exact h61.symm
  rw [if_neg h61] at h
  by_cases h62 : t = NETWORK_INFORMATION_SERVICE_PLUS_DOMAIN
  · rw [if_pos h62] at h
    obtain ⟨x, -, rfl⟩ := RResult.map_ok_inv h
    exact h62.symm
  rw [if_neg h62] at h
  by_cases h63 : t = NETWORK_INFORMATION_SERVICE_PLUS_SERVERS
  · rw [if_pos h63] at h
    obtain ⟨x, -, rfl⟩ := RResult.map_ok_inv h
    exact h63.symm
  rw [if_neg h63] at h
  by_cases h64 : t = TFTP_SERVER_NAME
  · rw [if_pos h64] at h
    obtain ⟨x, -, rfl⟩ := RResult.map_ok_inv h
    exact h64.symm
  rw [if_neg h64] at h
  by_cases h65 : t = BOOT_FILE_NAME
  · rw [if_pos h65] at h
    obtain ⟨x, -, rfl⟩ := RResult.map_ok_inv h
    exact h65.symm
  rw [if_neg h65] at h
  by_cases h66 : t = MOBILE_IP_HOME_AGENT
  · rw [if_pos h66] at h
    obtain ⟨x, -, rfl⟩ := RResult.map_ok_inv h
    exact h66.symm
  rw [if_neg h66] at h
  by_cases h67 : t = SMTP_SERVER
  · rw [if_pos h67] at h
    obtain ⟨x, -, rfl⟩ := RResult.map_ok_inv h
    exact h67.symm
  rw [if_neg h67] at h
  by_cases h68 : t = POP3_SERVER
  · rw [if_pos h68] at h
    obtain ⟨x, -, rfl⟩ := RResult.map_ok_inv h
    exact h68.symm
  rw [if_neg h68] at h
  by_cases h69 : t = NNTP_SERVER
  · rw [if_pos h69] at h
    obtain ⟨x, -, rfl⟩ := RResult.map_ok_inv h
    exact h69.symm
  rw [if_neg h69] at h
  by_cases h70 : t = WWW_SERVER
  · rw [if_pos h70] at h
    obtain ⟨x, -, rfl⟩ := RResult.map_ok_inv h
    exact h70.symm
  rw [if_neg h70] at h
  by_cases h71 : t = FINGER_SERVER
  · rw [if_pos h71] at h
    obtain ⟨x, -, rfl⟩ := RResult.map_ok_inv h
    exact h71.symm
  rw [if_neg h71] at h
  by_cases h72 : t = IRC_SERVER
  · rw [if_pos h72] at h
    obtain ⟨x, -, rfl⟩ := RResult.map_ok_inv h
    exact h72.symm
  rw [if_neg h72] at h
  by_cases h73 : t = STREET_TALK_SERVER
  · rw [if_pos h73] at h
    obtain ⟨x, -, rfl⟩ := RResult.map_ok_inv h
    exact h73.symm
  rw [if_neg h73] at h
  by_cases h74 : t = STREET_TALK_DIRECTORY_ASSISTANCE
  · rw [if_pos h74] at h
    obtain ⟨x, -, rfl⟩ := RResult.map_ok_inv h
    exact h74.symm
  rw [if_neg h74] at h
  by_cases h75 : t = END
  · rw [if_pos h75] at h
    injection h with he
    subst he
    exact h75.symm
  rw [if_neg h75] at h
  by_cases h76 : t = RELAY_AGENT_INFORMATION
  · rw [if_pos h76] at h
    obtain ⟨x, -, rfl⟩ := RResult.map_ok_inv h
    exact h76.symm
  rw [if_neg h76] at h
  injection h with he
  subst he
  rfl

end Dhcplib

namespace Dhcplib

/-- The slot/tag invariant of the option set: an occupied slot holds an
option whose own `tag()` equals the slot index. -/
def slotInvariant (s : DhcpOptions) : Prop :=
  ∀ (t : Nat) (o : DhcpOption), s.options.get? t = some (some o) → o.tag = t

/-- The slot/tag invariant away from the two wire tags 29 and 41 at which
the decoder stores a mismatched variant. -/
def slotInvariantExcept (s : DhcpOptions) : Prop :=
  ∀ (t : Nat) (o : DhcpOption), s.options.get? t = some (some o) →
    t ≠ PERFORM_MASK_DISCOVERY → t ≠ NETWORK_INFORMATION_SERVERS → o.tag = t

/-- Reading back from a `set` slot vector: the read hits the written slot
(with the written value) or an untouched slot. -/
theorem get_set_inv {α : Type} (l : List α) (i : Nat) (x : α) (t : Nat) (y : α)
    (h : (l.set i x).get? t = some y) :
    (t = i ∧ y = x) ∨ (t ≠ i ∧ l.get? t = some y) := by
  rw [List.get?_eq_getElem?, List.getElem?_set] at h
  by_cases hti : i = t
  · rw [if_pos hti] at h
    by_cases hb : i < l.length
    · rw [if_pos hb] at h
      injection h with h2
      exact Or.inl ⟨hti.symm, h2.symm⟩
    · rw [if_neg hb] at h
      exact Option.noConfusion h
  · rw [if_neg hti] at h
    rw [List.get?_eq_getElem?]
    exact Or.inr ⟨fun he => hti he.symm, h⟩

/-- Slot `t` of `new_with_options init` can only hold an option whose
`tag()` is `t` (the slots are laid out from a tag-keyed map). -/
theorem new_with_options_invariant (init : List DhcpOption) :
    slotInvariant ⟨DhcpOptions.new_with_options init⟩ := by
  intro t o h
  unfold DhcpOptions.new_with_options at h
  rw [List.get?_eq_getElem?, List.getElem?_map] at h
  by_cases ht : t < OPTIONS_SIZE
  · rw [List.getElem?_range ht] at h
    simp only [Option.map_some'] at h
    injection h with h2
    have hp := List.find?_some h2
    exact of_decide_eq_true hp
  · rw [List.getElem?_eq_none (by simpa using ht)] at h
    exact Option.noConfusion h

/-- The streaming TLV loop preserves the slot/tag invariant away from wire
tags 29 and 41: every slot it fills is indexed by the wire tag just read,
and `from_bytes_tag` ties that tag to the stored option except at the two
buggy dispatch arms. -/
theorem fromBytesLoop_except :
    ∀ (bytes : List Nat) (opts res : List (Option DhcpOption)),
      slotInvariantExcept ⟨opts⟩ →
      DhcpOptions.fromBytesLoop bytes opts = .ok res →
      slotInvariantExcept ⟨res⟩
  | [], opts, res => by
    intro _ h
    rw [DhcpOptions.fromBytesLoop.eq_def] at h
    exact RResult.noConfusion (show (RResult.panic : RResult _) = .ok res from h)
  | t :: rest, opts, res => by
    intro hinv h
    rw [DhcpOptions.fromBytesLoop.eq_def] at h
    cases rest with
    | nil =>
      replace h : (if t = PAD then DhcpOptions.fromBytesLoop [] opts
          else if t = END then RResult.ok (opts.set END (some DhcpOption.End))
          else RResult.panic) = .ok res := h
      by_cases hp : t = PAD
      · rw [if_pos hp] at h
        exact fromBytesLoop_except [] opts res hinv h
      rw [if_neg hp] at h
      by_cases he : t = END
      · rw [if_pos he] at h
        injection h with h2
        subst h2
        intro u o hget hne29 hne41
        rcases get_set_inv opts END (some .End) u (some o) hget with ⟨h1, h2⟩ | ⟨_, h2⟩
        · injection h2 with h3
          subst h3
          exact h1.symm
        · exact hinv u o h2 hne29 hne41
      rw [if_neg he] at h
      exact RResult.noConfusion h
    | cons len rest2 =>
      replace h : (if t = PAD then DhcpOptions.fromBytesLoop (len :: rest2) opts
          else if t = END then RResult.ok (opts.set END (some DhcpOption.End))
          else if len ≤ rest2.length then
            (match DhcpOption.from_bytes t len (List.take len rest2) with
              | RResult.ok o =>
                  DhcpOptions.fromBytesLoop (List.drop len rest2) (opts.set t (some o))
              | RResult.err e => RResult.err e
              | RResult.panic => RResult.panic)
          else RResult.panic) = .ok res := h
      by_cases hp : t = PAD
      · rw [if_pos hp] at h
        exact fromBytesLoop_except (len :: rest2) opts res hinv h
      rw [if_neg hp] at h
      by_cases he : t = END
      · rw [if_pos he] at h
        injection h with h2
        subst h2
        intro u o hget hne29 hne41
        rcases get_set_inv opts END (some .End) u (some o) hget with ⟨h1, h2⟩ | ⟨_, h2⟩
        · injection h2 with h3
          subst h3
          exact h1.symm
        · exact hinv u o h2 hne29 hne41
      rw [if_neg he] at h
      by_cases hl : len ≤ rest2.length
      · rw [if_pos hl] at h
        cases hfb : DhcpOption.from_bytes t len (List.take len rest2) with
        | ok o =>
          rw [hfb] at h
          replace h : DhcpOptions.fromBytesLoop (List.drop len rest2)
              (opts.set t (some o)) = .ok res := h
          refine fromBytesLoop_except (List.drop len rest2) (opts.set t (some o)) res ?_ h
          intro u o' hget hne29 hne41
          rcases get_set_inv opts t (some o) u (some o') hget with ⟨h1, h2⟩ | ⟨_, h2⟩
          · injection h2 with h3
            subst h3
            subst h1
            exact from_bytes_tag u len (List.take len rest2) o' hne29 hne41 hfb
          · exact hinv u o' h2 hne29 hne41
        | err e =>
          rw [hfb] at h
          exact RResult.noConfusion (show RResult.err e = .ok res from h)
        | panic =>
          rw [hfb] at h
          exact RResult.noConfusion (show (RResult.panic : RResult _) = .ok res from h)
      · rw [if_neg hl] at h
        exact RResult.noConfusion h
  termination_by bytes => bytes.length
  decreasing_by
    · simp only [List.length_cons]
      omega
    · simp only [List.length_cons]
      omega
    · simp only [List.length_drop, List.length_cons]
      omega

end Dhcplib

namespace Dhcplib

/-- The `merge` fold preserves the slot/tag invariant: every entry it copies
is re-indexed by its own `tag()`. -/
theorem merge_fold_invariant :
    ∀ (entries acc : List (Option DhcpOption)),
      slotInvariant ⟨acc⟩ →
      slotInvariant ⟨entries.foldl (fun acc o =>
        match o with
        | some o => acc.set o.tag (some o)
        | none => acc) acc⟩
  | [], _, h => h
  | e :: rest, acc, h => by
    rw [List.foldl_cons]
    cases e with
    | none => exact merge_fold_invariant rest acc h
    | some o =>
      refine merge_fold_invariant rest (acc.set o.tag (some o)) ?_
      intro u o' hget
      rcases get_set_inv acc o.tag (some o) u (some o') hget with ⟨h1, h2⟩ | ⟨_, h2⟩
      · injection h2 with h3
        subst h3
        exact h1.symm
      · exact h u o' h2

/-- Claim C3, counterexample: the slot/tag invariant fails on
`DhcpOptions::from_bytes`.  The stream `[41, 4, 1,2,3,4, 255]` parses
successfully and leaves slot 41 holding an option whose `tag()` is 44
(`NetworkInformationServers` reports `NETBIOS_OVER_TCP_IP_NAME_SERVER`);
the stream `[29, 1, 1, 255]` leaves slot 29 holding an option whose
`tag()` is 31 (wire tag 29 decodes to `PerformRouterDiscovery`). -/
theorem c3_counterexample_wire_tags_29_41 :
    (DhcpOptions.from_bytes [41, 4, 1, 2, 3, 4, 255]).map
        (fun s => (s.option 41).map DhcpOption.tag) = .ok (some 44)
    ∧ (44 : Nat) ≠ 41
    ∧ (DhcpOptions.from_bytes [29, 1, 1, 255]).map
        (fun s => (s.option 29).map DhcpOption.tag) = .ok (some 31)
    ∧ (31 : Nat) ≠ 29 := by
  refine ⟨?_, by decide, ?_, by decide⟩
  · simp [DhcpOptions.from_bytes, DhcpOptions.fromBytesLoop, DhcpOption.from_bytes,
      DhcpOptions.new_with_options, DhcpOptions.option, PAD, END, tryMinBytes,
      tryToIpv4Vec, ipv4Chunks, RResult.map, RResult.bind, OPTIONS_SIZE]
    rfl
  · simp [DhcpOptions.from_bytes, DhcpOptions.fromBytesLoop, DhcpOption.from_bytes,
      DhcpOptions.new_with_options, DhcpOptions.option, PAD, END, tryToBool,
      RResult.map, RResult.bind, OPTIONS_SIZE]
    rfl

/-- Claim C3, amended: the slot/tag invariant — an occupied slot `t` holds
an option whose own `tag()` equals `t` — holds for every option set
reachable through `new_with_options`, `upsert`, `upsert_option`, `merge`
and `remove`; `from_bytes` guarantees it for every slot except the two
buggy wire tags 29 (`PERFORM_MASK_DISCOVERY`, stored as
`PerformRouterDiscovery` with `tag()` 31) and 41
(`NETWORK_INFORMATION_SERVERS`, stored as `NetworkInformationServers`
whose `tag()` is 44). -/
theorem c3_slot_tag_invariant_by_construction :
    (∀ init : List DhcpOption, slotInvariant ⟨DhcpOptions.new_with_options init⟩)
    ∧ (∀ (s : DhcpOptions) (o : DhcpOption), slotInvariant s →
        slotInvariant (s.upsert o))
    ∧ (∀ (s : DhcpOptions) (o : Option DhcpOption), slotInvariant s →
        slotInvariant (s.upsert_option o))
    ∧ (∀ s other : DhcpOptions, slotInvariant s → slotInvariant (s.merge other))
    ∧ (∀ (s : DhcpOptions) (t : Nat), slotInvariant s → slotInvariant (s.remove t))
    ∧ (∀ (bytes : List Nat) (s : DhcpOptions),
        DhcpOptions.from_bytes bytes = .ok s → slotInvariantExcept s) := by
  have hupsert : ∀ (s : DhcpOptions) (o : DhcpOption), slotInvariant s →
      slotInvariant (s.upsert o) := by
    intro s o hs u o' hget
    rcases get_set_inv s.options o.tag (some o) u (some o') hget with ⟨h1, h2⟩ | ⟨_, h2⟩
    · injection h2 with h3
      subst h3
      exact h1.symm
    · exact hs u o' h2
  refine ⟨new_with_options_invariant, hupsert, ?_, ?_, ?_, ?_⟩
  · intro s o hs
    cases o with
    | none => exact hs
    | some o => exact hupsert s o hs
  · intro s other hs
    exact merge_fold_invariant other.options s.options hs
  · intro s t hs u o hget
    rcases get_set_inv s.options t none u (some o) hget with ⟨_, h2⟩ | ⟨_, h2⟩
    · exact Option.noConfusion h2
    · exact hs u o h2
  · intro bytes s h
    obtain ⟨opts, h1, h2⟩ := RResult.map_ok_inv h
    subst h2
    exact fromBytesLoop_except bytes _ opts
      (fun u o hget _ _ => new_with_options_invariant [] u o hget) h1

/-- Witness for C3's amended theorem at concrete inputs: the invariant
instances reached by upserting a `MessageType` option into the empty set
(slot 53) and by parsing the one-byte stream `[255]` (slot 255 holds
`End`). -/
theorem c3_witness :
    DhcpOption.tag (.MessageType .Discover) = 53
    ∧ DhcpOption.tag .End = 255 := by
  constructor
  · have h1 := c3_slot_tag_invariant_by_construction.1 ([] : List DhcpOption)
    have h2 := c3_slot_tag_invariant_by_construction.2.1 DhcpOptions.new
      (.MessageType .Discover) h1
    exact h2 53 (.MessageType .Discover) rfl
  · have hfb : DhcpOptions.from_bytes [255]
        = .ok ⟨(DhcpOptions.new_with_options []).set 255 (some .End)⟩ := by
      show (DhcpOptions.fromBytesLoop [255] (DhcpOptions.new_with_options [])).map
        DhcpOptions.mk = _
      rw [DhcpOptions.fromBytesLoop.eq_def]
      rfl
    have h3 := c3_slot_tag_invariant_by_construction.2.2.2.2.2 [255]
      ⟨(DhcpOptions.new_with_options []).set 255 (some .End)⟩ hfb
    exact h3 255 .End rfl (by decide) (by decide)

end Dhcplib
